import Mathlib

/-!
# Smart-farm controller: DateTime / RTC abstraction and Scheduler

A shallow embedding of `lib/RTClib/RTClib.cpp`, `src/scheduler.cpp` and
`src/actuators.cpp`.  Machine integers are natural numbers with the wrap-around
written out (`% 2 ^ 32` for `uint32_t` / `unsigned long`, `% 65536` for
`uint16_t`, `% 256` for `uint8_t`).  A read of `daysInMonthArray` outside the
table and a loop that exhausts its fuel are reported as `none`.
-/

namespace SmartFarm

/-! ## Platform -/

/-- Width of `int`: the firmware builds for `ARDUINO_AVR_UNO` (16-bit `int`, so
`uint16_t` is `unsigned int`) and for `ESP32` (32-bit `int`), see `config.h`. -/
inductive Platform where
  | avrUno
  | esp32
  deriving DecidableEq, Repr

/-! ## DateTime (RTClib.cpp) -/

/-- Table `daysInMonthArray` (index 0 unused). -/
def daysInMonthArray : List Nat :=
  [0, 31, 28, 31, 30, 31, 30, 31, 31, 30, 31, 30, 31]

/-- Leap-year test `DateTime::isLeapYear(uint16_t)`. -/
def isLeapYear (year : Nat) : Bool :=
  (year % 4 == 0 && year % 100 != 0) || (year % 400 == 0)

/-- The expression `isLeapYear(year) ? 366 : 365` used by both epoch loops. -/
def yearLength (year : Nat) : Nat :=
  if isLeapYear year then 366 else 365

/-- Lookup `DateTime::getDaysInMonth(month, year)`; `none` when the table index
is out of bounds. -/
def getDaysInMonth (month year : Nat) : Option Nat :=
  if month == 2 && isLeapYear year then some 29 else daysInMonthArray[month]?

/-- Weekday `DateTime::calculateDayOfWeek(year, month, day)`.

On the ESP32 the sum is a signed 32-bit `int`, `%` truncates towards zero and the
store into `uint16_t h` reduces modulo `2 ^ 16`.  On the AVR `k` and `j` are
`unsigned int`, so the sum and `h + 5` are taken modulo `2 ^ 16`. -/
def calculateDayOfWeek (p : Platform) (year month day : Nat) : Nat :=
  let month1 := if month < 3 then (month + 12) % 256 else month
  let year1 := if month < 3 then (year + 65535) % 65536 else year
  let k : Nat := year1 % 100
  let j : Nat := year1 / 100
  let sum : Int :=
    (day : Int) + ((13 * (month1 + 1)) / 5 : Nat) + k + (k / 4 : Nat) + (j / 4 : Nat) - 2 * j
  match p with
  | Platform.esp32 =>
      let h : Nat := Int.toNat ((Int.tmod sum 7) % 65536)
      (h + 5) % 7
  | Platform.avrUno =>
      let h : Nat := Int.toNat (sum % 65536) % 7
      ((h + 5) % 65536) % 7

/-- The fields of a `DateTime` object (`year` is a `uint16_t`, the others are
`uint8_t`). -/
structure DateTime where
  year : Nat
  month : Nat
  day : Nat
  hour : Nat
  minute : Nat
  second : Nat
  dayOfWeek : Nat
  deriving DecidableEq, Repr

/-- Default constructor `DateTime::DateTime()`. -/
def DateTime.default : DateTime :=
  { year := 2000, month := 1, day := 1, hour := 0, minute := 0, second := 0, dayOfWeek := 6 }

/-- Constructor `DateTime::DateTime(year, month, day, hour, minute, second)`. -/
def DateTime.ofComponents (p : Platform) (year month day hour minute second : Nat) : DateTime :=
  { year := year, month := month, day := day, hour := hour, minute := minute,
    second := second, dayOfWeek := calculateDayOfWeek p year month day }

/-- Accessor `DateTime::dayOfTheWeek()`. -/
def DateTime.dayOfTheWeek (dt : DateTime) : Nat := dt.dayOfWeek

/-- First loop of `DateTime::DateTime(uint32_t)`:
`while (days >= yearLength(year)) { days -= yearLength(year); year++; }`.
Returns the remaining days and the year. -/
def yearLoop : Nat → Nat → Nat → Option (Nat × Nat)
  | 0, _, _ => none
  | fuel + 1, days, year =>
      if days ≥ yearLength year then
        yearLoop fuel (days - yearLength year) ((year + 1) % 65536)
      else some (days, year)

/-- Second loop of `DateTime::DateTime(uint32_t)`:
`while (days >= getDaysInMonth(month, year)) { days -= ...; month++; }`.
Returns the remaining days and the month. -/
def monthLoop : Nat → Nat → Nat → Nat → Option (Nat × Nat)
  | 0, _, _, _ => none
  | fuel + 1, days, month, year =>
      match getDaysInMonth month year with
      | none => none
      | some len =>
          if days ≥ len then monthLoop fuel (days - len) ((month + 1) % 256) year
          else some (days, month)

/-- Constructor `DateTime::DateTime(uint32_t unixTime)`.  Every completed
iteration of either loop makes `days` strictly smaller, so `days + 1` steps of
fuel are never used up. -/
def DateTime.ofUnixtime (p : Platform) (unixTime : Nat) : Option DateTime :=
  let days := unixTime / 86400
  let seconds := unixTime % 86400
  let hour := (seconds / 3600) % 256
  let minute := ((seconds % 3600) / 60) % 256
  let second := (seconds % 60) % 256
  match yearLoop (days + 1) days 1970 with
  | none => none
  | some (days1, year) =>
      match monthLoop (days1 + 1) days1 1 year with
      | none => none
      | some (days2, month) =>
          let day := (days2 + 1) % 256
          some { year := year, month := month, day := day, hour := hour, minute := minute,
                 second := second, dayOfWeek := calculateDayOfWeek p year month day }

/-- First loop of `DateTime::unixtime()`:
`for (uint16_t y = 1970; y < _year; y++) days += isLeapYear(y) ? 366 : 365;`
started with `days = 0`. -/
def daysBeforeYear (year : Nat) : Nat :=
  (List.range' 1970 (year - 1970)).foldl (fun days y => (days + yearLength y) % 2 ^ 32) 0

/-- Second loop of `DateTime::unixtime()`:
`for (uint8_t m = 1; m < _month; m++) days += getDaysInMonth(m, _year);`. -/
def addMonthDays (days month year : Nat) : Option Nat :=
  (List.range' 1 (month - 1)).foldlM
    (fun acc m => (getDaysInMonth m year).map (fun len => (acc + len) % 2 ^ 32)) days

/-- Conversion `DateTime::unixtime()`; all arithmetic is `uint32_t`, and `_day - 1`
is an `int` that is converted to `uint32_t` when added. -/
def DateTime.unixtime (dt : DateTime) : Option Nat :=
  match addMonthDays (daysBeforeYear dt.year) dt.month dt.year with
  | none => none
  | some days =>
      let days1 := (days + (dt.day + 2 ^ 32 - 1)) % 2 ^ 32
      some ((days1 * 86400 + dt.hour * 3600 + dt.minute * 60 + dt.second) % 2 ^ 32)

/-! ## Configuration constants (config.h) -/

def LED_ON_HOUR : Nat := 6
def LED_OFF_HOUR : Nat := 22
def WATERING_HOUR_1 : Nat := 8
def WATERING_HOUR_2 : Nat := 18
def WATERING_MINUTE : Nat := 0
def WATERING_DURATION : Nat := 30000
def LINEAR_MOVE_HOUR_1 : Nat := 10
def LINEAR_MOVE_HOUR_2 : Nat := 15
def LINEAR_MOVE_MINUTE : Nat := 0

/-! ## ActuatorManager (actuators.cpp) -/

/-- An invocation of an `ActuatorManager` method, as a mock of the actuator
surface would record it. -/
inductive ActuatorCall where
  | activatePumps (activate : Bool)
  | activateFans (activate : Bool)
  | activateLED (activate : Bool)
  | moveLinearActuator
  | startWatering
  | stopWatering
  | checkWateringDuration
  | emergencyStop
  deriving DecidableEq, Repr

/-- State of an `ActuatorManager`.  `calls` is a ghost trace of the method
invocations, oldest first; pin levels, the stepper and serial output are not
part of the state. -/
structure ActuatorManager where
  pumpStatus : Bool
  fanStatus : Bool
  ledStatus : Bool
  wateringActive : Bool
  wateringStartTime : Nat
  calls : List ActuatorCall
  deriving DecidableEq, Repr

/-- Constructor `ActuatorManager::ActuatorManager()`. -/
def ActuatorManager.new : ActuatorManager :=
  { pumpStatus := false, fanStatus := false, ledStatus := false, wateringActive := false,
    wateringStartTime := 0, calls := [] }

def ActuatorManager.isPumpActive (a : ActuatorManager) : Bool := a.pumpStatus
def ActuatorManager.isFanActive (a : ActuatorManager) : Bool := a.fanStatus
def ActuatorManager.isLEDActive (a : ActuatorManager) : Bool := a.ledStatus
def ActuatorManager.isWateringActive (a : ActuatorManager) : Bool := a.wateringActive

/-- Method `ActuatorManager::activatePumps(bool)`. -/
def ActuatorManager.activatePumps (a : ActuatorManager) (activate : Bool) : ActuatorManager :=
  { a with pumpStatus := activate, calls := a.calls ++ [ActuatorCall.activatePumps activate] }

/-- Method `ActuatorManager::activateFans(bool)`. -/
def ActuatorManager.activateFans (a : ActuatorManager) (activate : Bool) : ActuatorManager :=
  { a with fanStatus := activate, calls := a.calls ++ [ActuatorCall.activateFans activate] }

/-- Method `ActuatorManager::activateLED(bool)`. -/
def ActuatorManager.activateLED (a : ActuatorManager) (activate : Bool) : ActuatorManager :=
  { a with ledStatus := activate, calls := a.calls ++ [ActuatorCall.activateLED activate] }

/-- Method `ActuatorManager::moveLinearActuator()`: it only drives the stepper. -/
def ActuatorManager.moveLinearActuator (a : ActuatorManager) : ActuatorManager :=
  { a with calls := a.calls ++ [ActuatorCall.moveLinearActuator] }

/-- Method `ActuatorManager::startWatering()`; `millis` is the value `millis()`
returns during the call. -/
def ActuatorManager.startWatering (a : ActuatorManager) (millis : Nat) : ActuatorManager :=
  let a1 := { a with calls := a.calls ++ [ActuatorCall.startWatering] }
  if !a1.wateringActive then
    { a1.activatePumps true with wateringActive := true, wateringStartTime := millis }
  else a1

/-- Method `ActuatorManager::stopWatering()`. -/
def ActuatorManager.stopWatering (a : ActuatorManager) : ActuatorManager :=
  let a1 := { a with calls := a.calls ++ [ActuatorCall.stopWatering] }
  if a1.wateringActive then
    { a1.activatePumps false with wateringActive := false }
  else a1

/-- Method `ActuatorManager::checkWateringDuration()`; the subtraction is
`unsigned long`. -/
def ActuatorManager.checkWateringDuration (a : ActuatorManager) (millis : Nat) :
    Bool × ActuatorManager :=
  let a1 := { a with calls := a.calls ++ [ActuatorCall.checkWateringDuration] }
  if a1.wateringActive && decide ((millis + 2 ^ 32 - a1.wateringStartTime) % 2 ^ 32 ≥ WATERING_DURATION) then
    (true, a1.stopWatering)
  else (false, a1)

/-- Method `ActuatorManager::emergencyStop()`. -/
def ActuatorManager.emergencyStop (a : ActuatorManager) : ActuatorManager :=
  let a1 := { a with calls := a.calls ++ [ActuatorCall.emergencyStop] }
  let a2 := ((a1.activatePumps false).activateFans false).activateLED false
  { a2 with wateringActive := false }

/-- The method invocations recorded between two states of the same manager. -/
def ActuatorManager.callsSince (before after : ActuatorManager) : List ActuatorCall :=
  after.calls.drop before.calls.length

/-! ## Scheduler (scheduler.cpp) -/

/-- State of a `Scheduler`; `lastDay` is an `int`. -/
structure Scheduler where
  todayWatering1Done : Bool
  todayWatering2Done : Bool
  todayLinearMove1Done : Bool
  todayLinearMove2Done : Bool
  lastDay : Int
  deriving DecidableEq, Repr

/-- Constructor `Scheduler::Scheduler()`. -/
def Scheduler.new : Scheduler :=
  { todayWatering1Done := false, todayWatering2Done := false,
    todayLinearMove1Done := false, todayLinearMove2Done := false, lastDay := -1 }

/-- Method `Scheduler::resetDailyTasks()`. -/
def Scheduler.resetDailyTasks (s : Scheduler) : Scheduler :=
  { s with todayWatering1Done := false, todayWatering2Done := false,
           todayLinearMove1Done := false, todayLinearMove2Done := false }

/-- Method `Scheduler::update(currentTime)`. -/
def Scheduler.update (s : Scheduler) (currentTime : DateTime) : Scheduler :=
  if s.lastDay ≠ (currentTime.day : Int) then
    { s.resetDailyTasks with lastDay := (currentTime.day : Int) }
  else s

/-- Method `Scheduler::isTimeForLED(currentTime)`. -/
def Scheduler.isTimeForLED (currentTime : DateTime) : Bool :=
  let currentHour := currentTime.hour
  decide (currentHour ≥ LED_ON_HOUR) && decide (currentHour < LED_OFF_HOUR)

/-- Method `Scheduler::isTimeToWater(currentTime)`: the returned flag and the
scheduler after the call. -/
def Scheduler.isTimeToWater (s : Scheduler) (currentTime : DateTime) : Bool × Scheduler :=
  let currentHour := currentTime.hour
  let currentMinute := currentTime.minute
  if currentHour == WATERING_HOUR_1 && currentMinute == WATERING_MINUTE
      && !s.todayWatering1Done then
    (true, { s with todayWatering1Done := true })
  else if currentHour == WATERING_HOUR_2 && currentMinute == WATERING_MINUTE
      && !s.todayWatering2Done then
    (true, { s with todayWatering2Done := true })
  else (false, s)

/-- Method `Scheduler::isTimeToMovePlant(currentTime)`: the returned flag and the
scheduler after the call. -/
def Scheduler.isTimeToMovePlant (s : Scheduler) (currentTime : DateTime) : Bool × Scheduler :=
  let currentHour := currentTime.hour
  let currentMinute := currentTime.minute
  if currentHour == LINEAR_MOVE_HOUR_1 && currentMinute == LINEAR_MOVE_MINUTE
      && !s.todayLinearMove1Done then
    (true, { s with todayLinearMove1Done := true })
  else if currentHour == LINEAR_MOVE_HOUR_2 && currentMinute == LINEAR_MOVE_MINUTE
      && !s.todayLinearMove2Done then
    (true, { s with todayLinearMove2Done := true })
  else (false, s)

/-- Method `Scheduler::timeBasedControl(currentTime, actuators)`; `millis` is the
value `millis()` returns while the call runs. -/
def Scheduler.timeBasedControl (s : Scheduler) (currentTime : DateTime) (actuators : ActuatorManager)
    (millis : Nat) : Scheduler × ActuatorManager :=
  let a1 :=
    if Scheduler.isTimeForLED currentTime then
      if !actuators.isLEDActive then actuators.activateLED true else actuators
    else
      if actuators.isLEDActive then actuators.activateLED false else actuators
  let w := s.isTimeToWater currentTime
  let a2 := if w.1 then a1.startWatering millis else a1
  let m := w.2.isTimeToMovePlant currentTime
  let a3 := if m.1 then a2.moveLinearActuator else a2
  (m.2, a3)

/-- A call made to the scheduler by its host loop. -/
inductive SchedulerCall where
  | update (currentTime : DateTime)
  | timeBasedControl (currentTime : DateTime) (millis : Nat)
  deriving DecidableEq, Repr

/-- The time supplied with a scheduler call. -/
def SchedulerCall.time : SchedulerCall → DateTime
  | SchedulerCall.update t => t
  | SchedulerCall.timeBasedControl t _ => t

/-- Number of `timeBasedControl` calls of the sequence, run from the given state,
that are made at hour `hour` and request `startWatering`. -/
def wateringFirings (hour : Nat) : Scheduler → ActuatorManager → List SchedulerCall → Nat
  | _, _, [] => 0
  | s, a, SchedulerCall.update t :: rest => wateringFirings hour (s.update t) a rest
  | s, a, SchedulerCall.timeBasedControl t millis :: rest =>
      let r := s.timeBasedControl t a millis
      (if t.hour = hour ∧ ActuatorCall.startWatering ∈ a.callsSince r.2 then 1 else 0)
        + wateringFirings hour r.1 r.2 rest

/-- Number of `timeBasedControl` calls of the sequence, run from the given state,
that are made at hour `hour` and request `moveLinearActuator`. -/
def movementFirings (hour : Nat) : Scheduler → ActuatorManager → List SchedulerCall → Nat
  | _, _, [] => 0
  | s, a, SchedulerCall.update t :: rest => movementFirings hour (s.update t) a rest
  | s, a, SchedulerCall.timeBasedControl t millis :: rest =>
      let r := s.timeBasedControl t a millis
      (if t.hour = hour ∧ ActuatorCall.moveLinearActuator ∈ a.callsSince r.2 then 1 else 0)
        + movementFirings hour r.1 r.2 rest

/-- Two times on the same calendar date. -/
def DateTime.sameDate (a b : DateTime) : Prop :=
  a.year = b.year ∧ a.month = b.month ∧ a.day = b.day

instance (a b : DateTime) : Decidable (a.sameDate b) := by
  unfold DateTime.sameDate; infer_instance

/-! ## Float values (as far as the firmware compares them) -/

/-- A `float` as the comparison operators see it: NaN, an infinity, or a finite
value (every finite `float` is a rational number).  The firmware only stores and
compares floats; it does no float arithmetic. -/
inductive FloatVal where
  | nan
  | negInf
  | finite (q : ℚ)
  | posInf
  deriving DecidableEq

/-- Library function `isnan`. -/
def FloatVal.isnan : FloatVal → Bool
  | FloatVal.nan => true
  | _ => false

/-- Comparison `a < b` of floats: false as soon as one side is NaN. -/
def FloatVal.lt : FloatVal → FloatVal → Bool
  | FloatVal.nan, _ => false
  | _, FloatVal.nan => false
  | FloatVal.negInf, FloatVal.negInf => false
  | FloatVal.negInf, _ => true
  | FloatVal.finite _, FloatVal.negInf => false
  | FloatVal.finite a, FloatVal.finite b => decide (a < b)
  | FloatVal.finite _, FloatVal.posInf => true
  | FloatVal.posInf, _ => false

/-- Comparison `a <= b` of floats: false as soon as one side is NaN. -/
def FloatVal.le : FloatVal → FloatVal → Bool
  | FloatVal.nan, _ => false
  | _, FloatVal.nan => false
  | FloatVal.negInf, _ => true
  | FloatVal.finite _, FloatVal.negInf => false
  | FloatVal.finite a, FloatVal.finite b => decide (a ≤ b)
  | FloatVal.finite _, FloatVal.posInf => true
  | FloatVal.posInf, FloatVal.posInf => true
  | FloatVal.posInf, _ => false

/-- Comparison `a > b` of floats. -/
def FloatVal.gt (a b : FloatVal) : Bool := FloatVal.lt b a

/-- Comparison `a >= b` of floats. -/
def FloatVal.ge (a b : FloatVal) : Bool := FloatVal.le b a

/-! ## Environment constants (config.h) -/

def OPTIMAL_TEMP_MIN : FloatVal := FloatVal.finite 15
def OPTIMAL_TEMP_MAX : FloatVal := FloatVal.finite 20
def OPTIMAL_HUMIDITY_MIN : FloatVal := FloatVal.finite 60
def OPTIMAL_HUMIDITY_MAX : FloatVal := FloatVal.finite 80
def OPTIMAL_LIGHT_MIN : Int := 300
def OPTIMAL_LIGHT_MAX : Int := 600
def SENSOR_INTERVAL : Nat := 2000
def ESP32_SEND_INTERVAL : Nat := 10000
def RTC_READ_INTERVAL : Nat := 1000

/-! ## SensorManager (sensors.cpp) -/

/-- State of a `SensorManager`; the DHT sensor, the light sensor and the RTC chip
are outside, their readings are arguments of the reading methods. -/
structure SensorManager where
  temperature : FloatVal
  humidity : FloatVal
  lightLevel : Int
  currentTime : DateTime
  lastReadTime : Nat
  deriving DecidableEq

/-- Constructor `SensorManager::SensorManager()`. -/
def SensorManager.new : SensorManager :=
  { temperature := FloatVal.finite 0, humidity := FloatVal.finite 0, lightLevel := 0,
    currentTime := DateTime.default, lastReadTime := 0 }

def SensorManager.getTemperature (s : SensorManager) : FloatVal := s.temperature
def SensorManager.getHumidity (s : SensorManager) : FloatVal := s.humidity
def SensorManager.getLightLevel (s : SensorManager) : Int := s.lightLevel
def SensorManager.getCurrentTime (s : SensorManager) : DateTime := s.currentTime

/-- Method `SensorManager::readSensors()`; `millis`, `newTemp`, `newHumidity` and
`light` are what `millis()`, `dht.readTemperature()`, `dht.readHumidity()` and
`analogRead(LIGHT_SENSOR_PIN)` return during the call. -/
def SensorManager.readSensors (s : SensorManager) (millis : Nat) (newTemp newHumidity : FloatVal)
    (light : Int) : SensorManager :=
  if (millis + 2 ^ 32 - s.lastReadTime) % 2 ^ 32 < 1000 then s
  else
    let s1 :=
      if !newTemp.isnan && !newHumidity.isnan then
        { s with temperature := newTemp, humidity := newHumidity }
      else s
    { s1 with lightLevel := light, lastReadTime := millis }

/-- Method `SensorManager::readRTC()`; `now` is what `rtc.now()` returns. -/
def SensorManager.readRTC (s : SensorManager) (now : DateTime) : SensorManager :=
  { s with currentTime := now }

/-- Method `SensorManager::isValidReading()`. -/
def SensorManager.isValidReading (s : SensorManager) : Bool :=
  !s.temperature.isnan && !s.humidity.isnan &&
    s.temperature.gt (FloatVal.finite (-40)) && s.temperature.lt (FloatVal.finite 80) &&
    s.humidity.ge (FloatVal.finite 0) && s.humidity.le (FloatVal.finite 100)

/-! ## Scheduler: environment-based control (scheduler.cpp) -/

/-- First block of `Scheduler::environmentalControl`: fan control by temperature,
and by humidity inside the optimal temperature band. -/
def Scheduler.fanControl (sensors : SensorManager) (actuators : ActuatorManager) :
    ActuatorManager :=
  let temperature := sensors.getTemperature
  let humidity := sensors.getHumidity
  if temperature.gt OPTIMAL_TEMP_MAX then
    if !actuators.isFanActive then actuators.activateFans true else actuators
  else if temperature.lt OPTIMAL_TEMP_MIN then
    if actuators.isFanActive then actuators.activateFans false else actuators
  else
    if humidity.gt OPTIMAL_HUMIDITY_MAX && !actuators.isFanActive then
      actuators.activateFans true
    else if humidity.le OPTIMAL_HUMIDITY_MAX && actuators.isFanActive
        && temperature.le OPTIMAL_TEMP_MAX then
      actuators.activateFans false
    else actuators

/-- Second block of `Scheduler::environmentalControl`: the supplemental watering
pulse on low humidity; the `delay(5000)` between the two pump commands only lets
time pass. -/
def Scheduler.humidityWatering (sensors : SensorManager) (actuators : ActuatorManager) :
    ActuatorManager :=
  let humidity := sensors.getHumidity
  if humidity.lt OPTIMAL_HUMIDITY_MIN then
    if !actuators.isWateringActive && !actuators.isPumpActive then
      (actuators.activatePumps true).activatePumps false
    else actuators
  else actuators

/-- Third block of `Scheduler::environmentalControl`: the LED override by light
level. -/
def Scheduler.lightControl (sensors : SensorManager) (actuators : ActuatorManager) :
    ActuatorManager :=
  let lightLevel := sensors.getLightLevel
  let currentTime := sensors.getCurrentTime
  if Scheduler.isTimeForLED currentTime && decide (lightLevel < OPTIMAL_LIGHT_MIN) then
    if !actuators.isLEDActive then actuators.activateLED true else actuators
  else if !Scheduler.isTimeForLED currentTime && decide (lightLevel > OPTIMAL_LIGHT_MAX) then
    if actuators.isLEDActive then actuators.activateLED false else actuators
  else actuators

/-- Method `Scheduler::environmentalControl(sensors, actuators)`: its three
blocks in order.  It reads no member of the scheduler and no clock. -/
def Scheduler.environmentalControl (sensors : SensorManager) (actuators : ActuatorManager) :
    ActuatorManager :=
  Scheduler.lightControl sensors
    (Scheduler.humidityWatering sensors (Scheduler.fanControl sensors actuators))

/-- Successive `environmentalControl` calls, one for each sensor state of the
list. -/
def environmentalControls : ActuatorManager → List SensorManager → ActuatorManager
  | a, [] => a
  | a, sensors :: rest => environmentalControls (Scheduler.environmentalControl sensors a) rest

/-- The pump commands among recorded method invocations. -/
def ActuatorCall.isPumpCommand : ActuatorCall → Bool
  | ActuatorCall.activatePumps _ => true
  | _ => false

/-- The fan commands among recorded method invocations. -/
def ActuatorCall.isFanCommand : ActuatorCall → Bool
  | ActuatorCall.activateFans _ => true
  | _ => false

/-! ## SmartFarm (smartfarm.cpp) and the main loop (main.cpp) -/

/-- State of a `SmartFarm`; the communication manager keeps no state that the
control depends on. -/
structure SmartFarm where
  sensors : SensorManager
  actuators : ActuatorManager
  scheduler : Scheduler
  lastSensorRead : Nat
  lastESP32Send : Nat
  lastRTCRead : Nat
  deriving DecidableEq

/-- Constructor `SmartFarm::SmartFarm()`. -/
def SmartFarm.new : SmartFarm :=
  { sensors := SensorManager.new, actuators := ActuatorManager.new, scheduler := Scheduler.new,
    lastSensorRead := 0, lastESP32Send := 0, lastRTCRead := 0 }

/-- What the hardware returns during one call of `SmartFarm::run()`: `millis()`
at its start, `rtc.now()`, then `millis()` and the sensor readings inside
`readSensors()`, `millis()` inside `startWatering()` and inside
`checkWateringDuration()`. -/
structure RunInput where
  millis : Nat
  rtcNow : DateTime
  sensorMillis : Nat
  newTemp : FloatVal
  newHumidity : FloatVal
  light : Int
  wateringMillis : Nat
  checkMillis : Nat

/-- The guarded control block of `SmartFarm::run()`:
`if (sensors.isValidReading()) { update; timeBasedControl; environmentalControl;
printSystemStatus } else { report }`. -/
def SmartFarm.control (f : SmartFarm) (wateringMillis : Nat) : SmartFarm :=
  if f.sensors.isValidReading then
    let s1 := f.scheduler.update f.sensors.getCurrentTime
    let r := s1.timeBasedControl f.sensors.getCurrentTime f.actuators wateringMillis
    { f with scheduler := r.1, actuators := Scheduler.environmentalControl f.sensors r.2 }
  else f

/-- Method `SmartFarm::run()`. -/
def SmartFarm.run (f : SmartFarm) (i : RunInput) : SmartFarm :=
  let f1 :=
    if (i.millis + 2 ^ 32 - f.lastRTCRead) % 2 ^ 32 ≥ RTC_READ_INTERVAL then
      { f with sensors := f.sensors.readRTC i.rtcNow, lastRTCRead := i.millis }
    else f
  let f2 :=
    if (i.millis + 2 ^ 32 - f1.lastSensorRead) % 2 ^ 32 ≥ SENSOR_INTERVAL then
      let f1a := { f1 with sensors := f1.sensors.readSensors i.sensorMillis i.newTemp i.newHumidity
                                         i.light }
      { f1a.control i.wateringMillis with lastSensorRead := i.millis }
    else f1
  let f3 :=
    if (i.millis + 2 ^ 32 - f2.lastESP32Send) % 2 ^ 32 ≥ ESP32_SEND_INTERVAL then
      { f2 with lastESP32Send := i.millis }
    else f2
  { f3 with actuators := (f3.actuators.checkWateringDuration i.checkMillis).2 }

/-- Method `SmartFarm::emergencyStop()`. -/
def SmartFarm.emergencyStop (f : SmartFarm) : SmartFarm :=
  { f with actuators := f.actuators.emergencyStop, lastSensorRead := 0, lastESP32Send := 0,
           lastRTCRead := 0 }

/-- One call of `loop()` in `main.cpp`: the farm afterwards and whether the call
returns.  With `emergencyStopPressed` set it calls `farm.emergencyStop()` and
then stays in its `while (true)` blink loop. -/
def loop (farm : SmartFarm) (emergencyStopPressed : Bool) (i : RunInput) : SmartFarm × Bool :=
  if emergencyStopPressed then (farm.emergencyStop, false)
  else (farm.run i, true)

/-- The Arduino runtime: `loop()` is called again and again, each time after the
previous call has returned; the list gives the value of `emergencyStopPressed` and
the hardware readings for each call. -/
def runLoop : SmartFarm → List (Bool × RunInput) → SmartFarm
  | farm, [] => farm
  | farm, (pressed, i) :: rest =>
      let r := loop farm pressed i
      if r.2 then runLoop r.1 rest else r.1

/-! ## Calendar sums used to state the loop results -/

/-- Total length in days of the `n` years starting with `y0`. -/
def sumYears : Nat → Nat → Nat
  | _, 0 => 0
  | y0, n + 1 => yearLength y0 + sumYears (y0 + 1) n

/-- Length of a month as `getDaysInMonth` reports it, and 0 outside the table. -/
def monthLen (month year : Nat) : Nat :=
  (getDaysInMonth month year).getD 0

/-- Total length in days of the `n` months of `year` starting with month `m0`. -/
def sumMonths (year : Nat) : Nat → Nat → Nat
  | _, 0 => 0
  | m0, n + 1 => monthLen m0 year + sumMonths year (m0 + 1) n

/-! ## DateTime comparison (RTClib.cpp) -/

/-- Operator `DateTime::operator==`: the six fields agree. -/
def DateTime.eq (a b : DateTime) : Bool :=
  a.year == b.year && a.month == b.month && a.day == b.day &&
    a.hour == b.hour && a.minute == b.minute && a.second == b.second

/-- Operator `DateTime::operator<`: `unixtime() < other.unixtime()`. -/
def DateTime.lt (a b : DateTime) : Option Bool :=
  match a.unixtime, b.unixtime with
  | some ua, some ub => some (decide (ua < ub))
  | _, _ => none

/-- Lexicographic order on (year, month, day, hour, minute, second). -/
def DateTime.lexLt (a b : DateTime) : Prop :=
  a.year < b.year ∨ (a.year = b.year ∧ (a.month < b.month ∨ (a.month = b.month ∧
    (a.day < b.day ∨ (a.day = b.day ∧ (a.hour < b.hour ∨ (a.hour = b.hour ∧
      (a.minute < b.minute ∨ (a.minute = b.minute ∧ a.second < b.second)))))))))

/-- A date-time that denotes a calendar date and a time of day: month in 1..12,
day between 1 and the length of the month, hour below 24, minute and second
below 60. -/
def DateTime.Valid (dt : DateTime) : Prop :=
  1 ≤ dt.month ∧ dt.month ≤ 12 ∧ 1 ≤ dt.day ∧ dt.day ≤ monthLen dt.month dt.year ∧
    dt.hour < 24 ∧ dt.minute < 60 ∧ dt.second < 60

instance (dt : DateTime) : Decidable dt.Valid := by
  unfold DateTime.Valid; infer_instance

/-- Number of the day of a date, counted from 1970-01-01 as day 0. -/
def DateTime.dayNumber (dt : DateTime) : Nat :=
  sumYears 1970 (dt.year - 1970) + sumMonths dt.year 1 (dt.month - 1) + (dt.day - 1)

/-! ## Strings (Arduino `String`, as lists of characters) -/

/-- Does the list `s` begin with `pat`? -/
def beginsWith : List Char → List Char → Bool
  | [], _ => true
  | _ :: _, [] => false
  | p :: ps, c :: cs => p == c && beginsWith ps cs

/-- Scan of `replaceAll`: `skip` counts the characters of a found occurrence that
are still to be passed over. -/
def replaceGo (find repl : List Char) : Nat → List Char → List Char
  | _, [] => []
  | skip + 1, _ :: rest => replaceGo find repl skip rest
  | 0, c :: rest =>
      if beginsWith find (c :: rest) then repl ++ replaceGo find repl (find.length - 1) rest
      else c :: replaceGo find repl 0 rest

/-- Modelled from the spec: the Arduino core method `String::replace(find, replace)`
that `DateTime::formatTime` calls is not among the sources.  Token substitution
replaces every occurrence of `find`, scanning from the left and going on after
the replaced text; an empty `find` leaves the string unchanged. -/
def replaceAll (find repl s : List Char) : List Char :=
  if find = [] then s else replaceGo find repl 0 s

/-- Modelled from the spec: the Arduino core constructor `String(n)` for an
unsigned integer is not among the sources; it gives the decimal digits of `n`
without padding. -/
def decimal (n : Nat) : List Char :=
  Nat.toDigits 10 n

/-- The two decimal digits of a number below 100, zero-padded. -/
def twoDigits (n : Nat) : List Char :=
  [Nat.digitChar (n / 10), Nat.digitChar (n % 10)]

/-- Method `DateTime::formatTime(format)`. -/
def DateTime.formatTime (dt : DateTime) (format : List Char) : List Char :=
  let r1 := replaceAll ['H', 'H']
    (if dt.hour < 10 then ['0'] ++ decimal dt.hour else decimal dt.hour) format
  let r2 := replaceAll ['H'] (decimal dt.hour) r1
  let r3 := replaceAll ['m', 'm']
    (if dt.minute < 10 then ['0'] ++ decimal dt.minute else decimal dt.minute) r2
  let r4 := replaceAll ['m'] (decimal dt.minute) r3
  let r5 := replaceAll ['s', 's']
    (if dt.second < 10 then ['0'] ++ decimal dt.second else decimal dt.second) r4
  replaceAll ['s'] (decimal dt.second) r5

/-- Method `SensorManager::formatTime(dt)`. -/
def SensorManager.formatTime (dt : DateTime) : List Char :=
  let t0 : List Char := []
  let t1 := if dt.hour < 10 then t0 ++ ['0'] else t0
  let t2 := t1 ++ (decimal dt.hour ++ [':'])
  let t3 := if dt.minute < 10 then t2 ++ ['0'] else t2
  let t4 := t3 ++ (decimal dt.minute ++ [':'])
  let t5 := if dt.second < 10 then t4 ++ ['0'] else t4
  t5 ++ decimal dt.second

/-- Method `SensorManager::formatDate(dt)`. -/
def SensorManager.formatDate (dt : DateTime) : List Char :=
  let d0 : List Char := []
  let d1 := d0 ++ (decimal dt.year ++ ['-'])
  let d2 := if dt.month < 10 then d1 ++ ['0'] else d1
  let d3 := d2 ++ (decimal dt.month ++ ['-'])
  let d4 := if dt.day < 10 then d3 ++ ['0'] else d3
  d4 ++ decimal dt.day

/-! ## RTC_DS1307 register encoding (RTClib.cpp) -/

/-- Function `RTC_DS1307::bin2bcd(val)`; the result is a `uint8_t`. -/
def bin2bcd (val : Nat) : Nat :=
  (val + 6 * (val / 10)) % 256

/-- Function `RTC_DS1307::bcd2bin(val)`; `val >> 4` is `val / 16`, the result is a
`uint8_t`. -/
def bcd2bin (val : Nat) : Nat :=
  (val - 6 * (val / 16)) % 256

/-- The seven bytes `buffer[0..6]` that `RTC_DS1307::adjust(dt)` sends to the
chip; `buffer[0] &= 0x7F` clears bit 7 of the seconds byte. -/
def RTC_DS1307.adjustBuffer (dt : DateTime) : List Nat :=
  [bin2bcd dt.second % 128, bin2bcd dt.minute, bin2bcd dt.hour,
   bin2bcd ((dt.dayOfTheWeek + 1) % 256), bin2bcd dt.day, bin2bcd dt.month,
   bin2bcd (dt.year % 100)]

/-- Method `RTC_DS1307::now()`: `bytes` are the bytes the chip delivers (fewer
than seven when the transfer fails), `isInitialized` the member of that name. -/
def RTC_DS1307.now (p : Platform) (isInitialized : Bool) (bytes : List Nat) : DateTime :=
  if !isInitialized then DateTime.default
  else
    match bytes with
    | b0 :: b1 :: b2 :: _ :: b4 :: b5 :: b6 :: _ =>
        let second := bcd2bin (b0 % 128)
        let minute := bcd2bin b1
        let hour := bcd2bin b2
        let day := bcd2bin b4
        let month := bcd2bin b5
        let year := (bcd2bin b6 + 2000) % 65536
        DateTime.ofComponents p year month day hour minute second
    | _ => DateTime.default

/-! ## Actuator state and control operations -/

/-- Two actuator managers whose members agree (the ghost trace apart). -/
def ActuatorManager.sameState (a b : ActuatorManager) : Prop :=
  a.pumpStatus = b.pumpStatus ∧ a.fanStatus = b.fanStatus ∧ a.ledStatus = b.ledStatus ∧
    a.wateringActive = b.wateringActive ∧ a.wateringStartTime = b.wateringStartTime

/-- An operation of the control loop on the actuators. -/
inductive ControlOp where
  | timeBasedControl (currentTime : DateTime) (millis : Nat)
  | environmentalControl (sensors : SensorManager)
  | checkWateringDuration (millis : Nat)
  | emergencyStop

/-- Effect of one control operation on scheduler and actuators. -/
def ControlOp.apply (sa : Scheduler × ActuatorManager) : ControlOp → Scheduler × ActuatorManager
  | ControlOp.timeBasedControl t millis => sa.1.timeBasedControl t sa.2 millis
  | ControlOp.environmentalControl sensors => (sa.1, Scheduler.environmentalControl sensors sa.2)
  | ControlOp.checkWateringDuration millis => (sa.1, (sa.2.checkWateringDuration millis).2)
  | ControlOp.emergencyStop => (sa.1, sa.2.emergencyStop)

/-- Effect of a sequence of control operations. -/
def applyOps (sa : Scheduler × ActuatorManager) (ops : List ControlOp) :
    Scheduler × ActuatorManager :=
  ops.foldl ControlOp.apply sa

/-! ## Lemmas on the calendar tables -/

theorem yearLength_bounds (y : Nat) : 365 ≤ yearLength y ∧ yearLength y ≤ 366 := by
  unfold yearLength
  split <;> omega

theorem getDaysInMonth_eq_monthLen (m y : Nat) (h1 : 1 ≤ m) (h2 : m ≤ 12) :
    getDaysInMonth m y = some (monthLen m y) ∧ 28 ≤ monthLen m y ∧ monthLen m y ≤ 31 := by
  unfold monthLen getDaysInMonth
  interval_cases m <;> cases isLeapYear y <;> simp [daysInMonthArray]

theorem sumMonths_year (y : Nat) : sumMonths y 1 12 = yearLength y := by
  unfold yearLength
  cases h : isLeapYear y <;> simp [sumMonths, monthLen, getDaysInMonth, daysInMonthArray, h]

theorem sumYears_ge (n y0 : Nat) : n ≤ sumYears y0 n := by
  induction n generalizing y0 with
  | zero => simp [sumYears]
  | succ n ih =>
      have h1 := ih (y0 + 1)
      have h2 := (yearLength_bounds y0).1
      simp only [sumYears]
      omega

/-- Every day count splits into whole years from `y0` and a rest inside a year. -/
theorem exists_year_split (days : Nat) : ∀ y0, ∃ n r, days = sumYears y0 n + r ∧
    r < yearLength (y0 + n) := by
  induction days using Nat.strong_induction_on with
  | _ days ih =>
      intro y0
      by_cases h : days < yearLength y0
      · exact ⟨0, days, by simp [sumYears], by simpa using h⟩
      · have hb := (yearLength_bounds y0).1
        obtain ⟨n, r, h1, h2⟩ := ih (days - yearLength y0) (by omega) (y0 + 1)
        refine ⟨n + 1, r, ?_, ?_⟩
        · simp only [sumYears]; omega
        · have e : y0 + (n + 1) = y0 + 1 + n := by omega
          rw [e]; exact h2

/-- Every day count below the rest of the year from month `m0` on splits into
whole months and a rest inside a month. -/
theorem exists_month_split (y : Nat) : ∀ k m0 r0, 1 ≤ m0 → m0 + k = 13 → r0 < sumMonths y m0 k →
    ∃ n r, r0 = sumMonths y m0 n + r ∧ r < monthLen (m0 + n) y ∧ m0 + n ≤ 12 := by
  intro k
  induction k with
  | zero => intro m0 r0 _ _ h; simp [sumMonths] at h
  | succ k ih =>
      intro m0 r0 h1 h2 h3
      simp only [sumMonths] at h3
      by_cases h : r0 < monthLen m0 y
      · exact ⟨0, r0, by simp [sumMonths], by simpa using h, by omega⟩
      · obtain ⟨n, r, e1, e2, e3⟩ := ih (m0 + 1) (r0 - monthLen m0 y) (by omega) (by omega) (by omega)
        refine ⟨n + 1, r, ?_, ?_, by omega⟩
        · simp only [sumMonths]; omega
        · have e : m0 + (n + 1) = m0 + 1 + n := by omega
          rw [e]; exact e2

/-! ## The loops of the epoch constructor -/

theorem yearLoop_eq (n : Nat) : ∀ y0 r fuel, sumYears y0 n + r < fuel → y0 + n < 65536 →
    r < yearLength (y0 + n) → yearLoop fuel (sumYears y0 n + r) y0 = some (r, y0 + n) := by
  induction n with
  | zero =>
      intro y0 r fuel hf _ hr
      cases fuel with
      | zero => omega
      | succ f =>
          have hr1 : ¬ r ≥ yearLength y0 := by simpa using hr
          simp [yearLoop, sumYears, hr1]
  | succ n ih =>
      intro y0 r fuel hf hy hr
      cases fuel with
      | zero => omega
      | succ f =>
          have hb := (yearLength_bounds y0).1
          simp only [sumYears] at hf ⊢
          have hge : yearLength y0 + sumYears (y0 + 1) n + r ≥ yearLength y0 := by omega
          have e1 : yearLength y0 + sumYears (y0 + 1) n + r - yearLength y0
              = sumYears (y0 + 1) n + r := by omega
          have e2 : (y0 + 1) % 65536 = y0 + 1 := by omega
          have e3 : y0 + (n + 1) = y0 + 1 + n := by omega
          rw [yearLoop, if_pos hge, e1, e2, e3]
          exact ih (y0 + 1) r f (by omega) (by omega) (by rw [← e3]; exact hr)

theorem monthLoop_eq (y n : Nat) : ∀ m0 r fuel, 1 ≤ m0 → m0 + n ≤ 12 →
    sumMonths y m0 n + r < fuel → r < monthLen (m0 + n) y →
    monthLoop fuel (sumMonths y m0 n + r) m0 y = some (r, m0 + n) := by
  induction n with
  | zero =>
      intro m0 r fuel h1 h2 hf hr
      cases fuel with
      | zero => omega
      | succ f =>
          have hg := (getDaysInMonth_eq_monthLen m0 y h1 (by omega)).1
          have hr1 : ¬ r ≥ monthLen m0 y := by simpa using hr
          simp [monthLoop, sumMonths, hg, hr1]
  | succ n ih =>
      intro m0 r fuel h1 h2 hf hr
      cases fuel with
      | zero => omega
      | succ f =>
          obtain ⟨hg, hb, _⟩ := getDaysInMonth_eq_monthLen m0 y h1 (by omega)
          simp only [sumMonths] at hf ⊢
          have hge : monthLen m0 y + sumMonths y (m0 + 1) n + r ≥ monthLen m0 y := by omega
          have e1 : monthLen m0 y + sumMonths y (m0 + 1) n + r - monthLen m0 y
              = sumMonths y (m0 + 1) n + r := by omega
          have e2 : (m0 + 1) % 256 = m0 + 1 := by omega
          have e3 : m0 + (n + 1) = m0 + 1 + n := by omega
          rw [monthLoop, hg]
          simp only [if_pos hge, e1, e2, e3]
          exact ih (m0 + 1) r f (by omega) (by omega) (by omega) (by rw [← e3]; exact hr)

theorem sumYears_add (a : Nat) : ∀ b y0, sumYears y0 (a + b) = sumYears y0 a + sumYears (y0 + a) b := by
  induction a with
  | zero => intro b y0; simp [sumYears]
  | succ a ih =>
      intro b y0
      have e : a + 1 + b = (a + b) + 1 := by omega
      have e2 : y0 + (a + 1) = y0 + 1 + a := by omega
      rw [e, e2]
      simp only [sumYears, ih]
      omega

theorem sumMonths_add (y a : Nat) : ∀ b m0,
    sumMonths y m0 (a + b) = sumMonths y m0 a + sumMonths y (m0 + a) b := by
  induction a with
  | zero => intro b m0; simp [sumMonths]
  | succ a ih =>
      intro b m0
      have e : a + 1 + b = (a + b) + 1 := by omega
      have e2 : m0 + (a + 1) = m0 + 1 + a := by omega
      rw [e, e2]
      simp only [sumMonths, ih]
      omega

set_option maxRecDepth 100000 in
theorem sumYears_1970_135 : sumYears 1970 135 = 49308 := by decide

theorem sumYears_le_of_le (n : Nat) (h : n ≤ 135) : sumYears 1970 n ≤ 49308 := by
  have e : 135 = n + (135 - n) := by omega
  have h1 := sumYears_add n (135 - n) 1970
  rw [← e, sumYears_1970_135] at h1
  omega

theorem sumMonths_rest_lt (y k r : Nat) (hk : k ≤ 11) (hr : r < monthLen (1 + k) y) :
    sumMonths y 1 k + r < yearLength y := by
  have e : 12 = k + ((11 - k) + 1) := by omega
  have h1 := sumMonths_add y k ((11 - k) + 1) 1
  rw [← e, sumMonths_year] at h1
  simp only [sumMonths] at h1
  omega

/-! ## The loops of `unixtime` -/

theorem foldl_years (n : Nat) : ∀ y0 acc, acc + sumYears y0 n < 2 ^ 32 →
    (List.range' y0 n).foldl (fun days y => (days + yearLength y) % 2 ^ 32) acc
      = acc + sumYears y0 n := by
  induction n with
  | zero => intro y0 acc _; simp [sumYears]
  | succ n ih =>
      intro y0 acc h
      simp only [sumYears] at h ⊢
      have e : (acc + yearLength y0) % 2 ^ 32 = acc + yearLength y0 :=
        Nat.mod_eq_of_lt (by omega)
      rw [List.range'_succ, List.foldl_cons, e, ih (y0 + 1) (acc + yearLength y0) (by omega)]
      omega

theorem foldlM_months (y n : Nat) : ∀ m0 acc, 1 ≤ m0 → m0 + n ≤ 13 →
    acc + sumMonths y m0 n < 2 ^ 32 →
    (List.range' m0 n).foldlM
      (fun acc m => (getDaysInMonth m y).map (fun len => (acc + len) % 2 ^ 32)) acc
      = some (acc + sumMonths y m0 n) := by
  induction n with
  | zero => intro m0 acc _ _ _; simp [sumMonths]
  | succ n ih =>
      intro m0 acc h1 h2 h
      simp only [sumMonths] at h ⊢
      have hg := (getDaysInMonth_eq_monthLen m0 y h1 (by omega)).1
      have e : (acc + monthLen m0 y) % 2 ^ 32 = acc + monthLen m0 y :=
        Nat.mod_eq_of_lt (by omega)
      rw [List.range'_succ, List.foldlM_cons, hg]
      simp only [Option.map_some', Option.some_bind, Option.bind_eq_bind, e]
      rw [ih (m0 + 1) (acc + monthLen m0 y) (by omega) (by omega) (by omega)]
      congr 1
      omega

/-- Day count that the two loops of `unixtime()` reach for a date `n` years after
1970 and `k` months after January. -/
theorem addMonthDays_eq (n k : Nat) (hk : k ≤ 11)
    (hlt : sumYears 1970 n + sumMonths (1970 + n) 1 k < 2 ^ 32) :
    addMonthDays (daysBeforeYear (1970 + n)) (1 + k) (1970 + n)
      = some (sumYears 1970 n + sumMonths (1970 + n) 1 k) := by
  have e1 : 1970 + n - 1970 = n := by omega
  have e2 : 1 + k - 1 = k := by omega
  unfold addMonthDays daysBeforeYear
  rw [e1, e2, foldl_years n 1970 0 (by omega), foldlM_months (1970 + n) k 1 _ (by omega) (by omega)
    (by omega)]
  simp only [Nat.zero_add]

/-- Value of `unixtime()` on a date `n` years after 1970, `k` months after
January, as long as the count fits 32 bits. -/
theorem unixtime_eq (dt : DateTime) (n k : Nat) (hy : dt.year = 1970 + n)
    (hm : dt.month = 1 + k) (hk : k ≤ 11) (hd : 1 ≤ dt.day)
    (hlt : (sumYears 1970 n + sumMonths dt.year 1 k + (dt.day - 1)) * 86400
      + dt.hour * 3600 + dt.minute * 60 + dt.second < 2 ^ 32) :
    dt.unixtime = some ((sumYears 1970 n + sumMonths dt.year 1 k + (dt.day - 1)) * 86400
      + dt.hour * 3600 + dt.minute * 60 + dt.second) := by
  unfold DateTime.unixtime
  rw [hy, hm, addMonthDays_eq n k hk (by rw [hy] at hlt; omega)]
  simp only
  refine congrArg some ?_
  rw [hy] at hlt
  omega

/-- Value of the epoch constructor on a count written as whole years, whole
months, a rest of days and a rest of seconds. -/
theorem ofUnixtime_eq (p : Platform) (n k r sec : Nat) (hn : 1970 + n < 65536) (hk : k ≤ 11)
    (hr : r < monthLen (1 + k) (1970 + n)) (hsec : sec < 86400) :
    DateTime.ofUnixtime p ((sumYears 1970 n + (sumMonths (1970 + n) 1 k + r)) * 86400 + sec)
      = some { year := 1970 + n, month := 1 + k, day := r + 1, hour := sec / 3600,
               minute := sec % 3600 / 60, second := sec % 60,
               dayOfWeek := calculateDayOfWeek p (1970 + n) (1 + k) (r + 1) } := by
  have hrest := sumMonths_rest_lt (1970 + n) k r hk hr
  have hb := (getDaysInMonth_eq_monthLen (1 + k) (1970 + n) (by omega) (by omega)).2.2
  have ed : ((sumYears 1970 n + (sumMonths (1970 + n) 1 k + r)) * 86400 + sec) / 86400
      = sumYears 1970 n + (sumMonths (1970 + n) 1 k + r) := by omega
  have es : ((sumYears 1970 n + (sumMonths (1970 + n) 1 k + r)) * 86400 + sec) % 86400
      = sec := by omega
  have e1 : sec / 3600 % 256 = sec / 3600 := by omega
  have e2 : sec % 3600 / 60 % 256 = sec % 3600 / 60 := by omega
  have e3 : sec % 60 % 256 = sec % 60 := by omega
  have e4 : (r + 1) % 256 = r + 1 := by omega
  unfold DateTime.ofUnixtime
  simp only [ed, es]
  rw [yearLoop_eq n 1970 _ _ (by omega) hn hrest]
  simp only
  rw [monthLoop_eq (1970 + n) k 1 r _ (by omega) (by omega) (by omega) hr]
  simp only [e1, e2, e3, e4]

/-! ## Epoch conversion round trips -/

/-- C1: for every valid calendar date-time with 1970 <= year <= 2105, building the
`DateTime` from its components, taking `unixtime()` and building a `DateTime` from
that count gives back the same year, month, day, hour, minute and second (and
hence the same stored weekday). -/
theorem unixtime_roundtrip_components (p : Platform) (y m d h mi s len : Nat)
    (hy1 : 1970 ≤ y) (hy2 : y ≤ 2105) (hm1 : 1 ≤ m) (hm2 : m ≤ 12) (hd1 : 1 ≤ d)
    (hlen : getDaysInMonth m y = some len) (hd2 : d ≤ len)
    (hh : h < 24) (hmi : mi < 60) (hs : s < 60) :
    ∃ t, (DateTime.ofComponents p y m d h mi s).unixtime = some t ∧
      DateTime.ofUnixtime p t = some (DateTime.ofComponents p y m d h mi s) := by
  obtain ⟨n, rfl⟩ : ∃ n, y = 1970 + n := ⟨y - 1970, by omega⟩
  obtain ⟨k, rfl⟩ : ∃ k, m = 1 + k := ⟨m - 1, by omega⟩
  obtain ⟨r, rfl⟩ : ∃ r, d = r + 1 := ⟨d - 1, by omega⟩
  have hk : k ≤ 11 := by omega
  have hml : monthLen (1 + k) (1970 + n) = len := by simp [monthLen, hlen]
  have hr : r < monthLen (1 + k) (1970 + n) := by omega
  have hrest := sumMonths_rest_lt (1970 + n) k r hk hr
  have hyl := (yearLength_bounds (1970 + n)).2
  have hsum := sumYears_le_of_le n (by omega)
  have hu := unixtime_eq (DateTime.ofComponents p (1970 + n) (1 + k) (r + 1) h mi s) n k rfl rfl hk
    (by simp [DateTime.ofComponents]) (by simp only [DateTime.ofComponents]; omega)
  have ho := ofUnixtime_eq p n k r (h * 3600 + mi * 60 + s) (by omega) hk hr (by omega)
  refine ⟨_, hu, ?_⟩
  have e1 : (h * 3600 + mi * 60 + s) / 3600 = h := by omega
  have e2 : (h * 3600 + mi * 60 + s) % 3600 / 60 = mi := by omega
  have e3 : (h * 3600 + mi * 60 + s) % 60 = s := by omega
  rw [e1, e2, e3] at ho
  simp only [DateTime.ofComponents]
  rw [← ho]
  refine congrArg (DateTime.ofUnixtime p) ?_
  simp only [Nat.add_sub_cancel]
  omega

/-- Witness for C1: 2025-07-14 08:00:30 on the ESP32. -/
theorem unixtime_roundtrip_components_witness :
    ∃ t, (DateTime.ofComponents Platform.esp32 2025 7 14 8 0 30).unixtime = some t ∧
      DateTime.ofUnixtime Platform.esp32 t
        = some (DateTime.ofComponents Platform.esp32 2025 7 14 8 0 30) :=
  unixtime_roundtrip_components Platform.esp32 2025 7 14 8 0 30 31 (by decide) (by decide)
    (by decide) (by decide) (by decide) (by decide) (by decide) (by decide) (by decide)
    (by decide)

/-- C2: for every 32-bit epoch count `t`, the epoch constructor returns a
`DateTime` whose `unixtime()` is `t` again; the day count `days` reached by the
loops of `unixtime()` and the final sum, taken without any reduction modulo
`2 ^ 32`, already equal `t`, so no 32-bit operation wraps. -/
theorem ofUnixtime_unixtime (p : Platform) (t : Nat) (ht : t < 2 ^ 32) :
    ∃ dt days, DateTime.ofUnixtime p t = some dt ∧ dt.unixtime = some t ∧
      addMonthDays (daysBeforeYear dt.year) dt.month dt.year = some days ∧ 1 ≤ dt.day ∧
      (days + (dt.day - 1)) * 86400 + dt.hour * 3600 + dt.minute * 60 + dt.second = t := by
  obtain ⟨n, r1, h1, h2⟩ := exists_year_split (t / 86400) 1970
  have hn := sumYears_ge n 1970
  rw [← sumMonths_year] at h2
  obtain ⟨k, r, e1, e2, e3⟩ := exists_month_split (1970 + n) 12 1 r1 (by omega) (by omega) h2
  have hk : k ≤ 11 := by omega
  have hb := (getDaysInMonth_eq_monthLen (1 + k) (1970 + n) (by omega) (by omega)).2.2
  have et : (sumYears 1970 n + (sumMonths (1970 + n) 1 k + r)) * 86400 + t % 86400 = t := by
    omega
  have ho := ofUnixtime_eq p n k r (t % 86400) (by omega) hk e2 (by omega)
  rw [et] at ho
  refine ⟨_, _, ho, ?_, addMonthDays_eq n k hk (by omega), by simp, ?_⟩
  · rw [unixtime_eq _ n k rfl rfl hk (by simp) (by simp only [Nat.add_sub_cancel]; omega)]
    refine congrArg some ?_
    simp only [Nat.add_sub_cancel]
    omega
  · simp only [Nat.add_sub_cancel]
    omega

/-- Witness for C2: the largest 32-bit count, 2106-02-07 06:28:15. -/
theorem ofUnixtime_unixtime_witness :
    ∃ dt days, DateTime.ofUnixtime Platform.avrUno 4294967295 = some dt ∧
      dt.unixtime = some 4294967295 ∧
      addMonthDays (daysBeforeYear dt.year) dt.month dt.year = some days ∧ 1 ≤ dt.day ∧
      (days + (dt.day - 1)) * 86400 + dt.hour * 3600 + dt.minute * 60 + dt.second = 4294967295 :=
  ofUnixtime_unixtime Platform.avrUno 4294967295 (by decide)

/-! ## Weekday -/

/-- C3 (the code at the two reference dates): on both platforms `dayOfTheWeek()`
of 2025-07-14 is 0, not 1 (Monday), and that of 2000-01-01 is 5, not 6
(Saturday), although the default constructor stores 6 for 2000-01-01. -/
theorem dayOfTheWeek_reference_dates (p : Platform) (h mi s : Nat) :
    (DateTime.ofComponents p 2025 7 14 h mi s).dayOfTheWeek = 0 ∧
    (DateTime.ofComponents p 2000 1 1 h mi s).dayOfTheWeek = 5 ∧
    DateTime.default.dayOfTheWeek = 6 ∧
    DateTime.default.year = 2000 ∧ DateTime.default.month = 1 ∧ DateTime.default.day = 1 := by
  simp only [DateTime.dayOfTheWeek, DateTime.ofComponents, DateTime.default]
  cases p <;> decide

/-- C4 (the code at 2025-07-14): the stored weekday is 0 on both platforms while
the weekday that follows from the epoch count, `(unixtime() / 86400 + 4) mod 7`,
is 1; the computed weekday is nevertheless always below 7. -/
theorem dayOfTheWeek_differs_from_epoch (p : Platform) :
    (DateTime.ofComponents p 2025 7 14 0 0 0).dayOfTheWeek = 0 ∧
    (DateTime.ofComponents p 2025 7 14 0 0 0).unixtime = some 1752451200 ∧
    (1752451200 / 86400 + 4) % 7 = 1 ∧
    ∀ y m d, calculateDayOfWeek p y m d < 7 := by
  refine ⟨?_, ?_, by decide, ?_⟩
  · simp only [DateTime.dayOfTheWeek, DateTime.ofComponents]
    cases p <;> decide
  · cases p <;> decide
  · intro y m d
    unfold calculateDayOfWeek
    cases p <;> exact Nat.mod_lt _ (by decide)

/-! ## Scheduler: daily slots -/

theorem isTimeToWater_fst (s : Scheduler) (t : DateTime) :
    (s.isTimeToWater t).1 = true ↔
      (t.hour = 8 ∧ t.minute = 0 ∧ s.todayWatering1Done = false) ∨
      (t.hour = 18 ∧ t.minute = 0 ∧ s.todayWatering2Done = false) := by
  unfold Scheduler.isTimeToWater
  simp only [WATERING_HOUR_1, WATERING_HOUR_2, WATERING_MINUTE]
  split_ifs with h1 h2 <;> simp_all

theorem isTimeToWater_snd (s : Scheduler) (t : DateTime) :
    (s.isTimeToWater t).2 =
      { s with
        todayWatering1Done := s.todayWatering1Done || decide (t.hour = 8 ∧ t.minute = 0)
        todayWatering2Done := s.todayWatering2Done || decide (t.hour = 18 ∧ t.minute = 0) } := by
  unfold Scheduler.isTimeToWater
  simp only [WATERING_HOUR_1, WATERING_HOUR_2, WATERING_MINUTE]
  rcases s with ⟨w1, w2, m1, m2, ld⟩
  split_ifs with h1 h2 <;> cases w1 <;> cases w2 <;> simp_all

theorem isTimeToMovePlant_fst (s : Scheduler) (t : DateTime) :
    (s.isTimeToMovePlant t).1 = true ↔
      (t.hour = 10 ∧ t.minute = 0 ∧ s.todayLinearMove1Done = false) ∨
      (t.hour = 15 ∧ t.minute = 0 ∧ s.todayLinearMove2Done = false) := by
  unfold Scheduler.isTimeToMovePlant
  simp only [LINEAR_MOVE_HOUR_1, LINEAR_MOVE_HOUR_2, LINEAR_MOVE_MINUTE]
  split_ifs with h1 h2 <;> simp_all

theorem isTimeToMovePlant_snd (s : Scheduler) (t : DateTime) :
    (s.isTimeToMovePlant t).2 =
      { s with
        todayLinearMove1Done := s.todayLinearMove1Done || decide (t.hour = 10 ∧ t.minute = 0)
        todayLinearMove2Done := s.todayLinearMove2Done || decide (t.hour = 15 ∧ t.minute = 0) } := by
  unfold Scheduler.isTimeToMovePlant
  simp only [LINEAR_MOVE_HOUR_1, LINEAR_MOVE_HOUR_2, LINEAR_MOVE_MINUTE]
  rcases s with ⟨w1, w2, m1, m2, ld⟩
  split_ifs with h1 h2 <;> cases m1 <;> cases m2 <;> simp_all

theorem update_of_lastDay_eq (s : Scheduler) (t : DateTime) (h : s.lastDay = (t.day : Int)) :
    s.update t = s := by
  simp [Scheduler.update, h]

theorem update_of_lastDay_ne (s : Scheduler) (t : DateTime) (h : s.lastDay ≠ (t.day : Int)) :
    s.update t = { todayWatering1Done := false, todayWatering2Done := false,
                   todayLinearMove1Done := false, todayLinearMove2Done := false,
                   lastDay := (t.day : Int) } := by
  simp [Scheduler.update, Scheduler.resetDailyTasks, h]

theorem update_lastDay (s : Scheduler) (t : DateTime) : (s.update t).lastDay = (t.day : Int) := by
  unfold Scheduler.update
  split_ifs with h
  · rfl
  · simpa using h

/-! ## Scheduler: day rollover -/

/-- C5 (the code at the failing input): after `update` at 2025-07-14 08:00:00 the
08:00 watering fires; `update` at 2025-08-14 12:00:00, a different calendar date
with the same day of the month, performs no reset and leaves its done-flag set. -/
theorem update_same_day_of_month_no_reset :
    ¬ (DateTime.ofComponents Platform.esp32 2025 7 14 8 0 0).sameDate
        (DateTime.ofComponents Platform.esp32 2025 8 14 12 0 0) ∧
    ((((Scheduler.new.update (DateTime.ofComponents Platform.esp32 2025 7 14 8 0 0)).isTimeToWater
        (DateTime.ofComponents Platform.esp32 2025 7 14 8 0 0)).2).update
        (DateTime.ofComponents Platform.esp32 2025 8 14 12 0 0)).todayWatering1Done = true := by
  decide

/-- C6: after `update(t1)`, whatever the four done-flags have become since, a
call `update(t2)` with `t2` on the same calendar date changes nothing: flags and
stored day stay as they were. -/
theorem update_idempotent_same_date (s : Scheduler) (t1 t2 : DateTime) (w1 w2 m1 m2 : Bool)
    (h : t1.sameDate t2) :
    ({ s.update t1 with todayWatering1Done := w1, todayWatering2Done := w2,
                        todayLinearMove1Done := m1, todayLinearMove2Done := m2 } : Scheduler).update t2
      = { s.update t1 with todayWatering1Done := w1, todayWatering2Done := w2,
                           todayLinearMove1Done := m1, todayLinearMove2Done := m2 } := by
  apply update_of_lastDay_eq
  simp only [update_lastDay]
  rw [h.2.2]

/-- Witness for C6: 08:00:00 and 08:00:30 of 2025-07-14 with the first watering
done in between. -/
theorem update_idempotent_same_date_witness :
    ({ Scheduler.new.update (DateTime.ofComponents Platform.esp32 2025 7 14 8 0 0) with
        todayWatering1Done := true, todayWatering2Done := false,
        todayLinearMove1Done := false, todayLinearMove2Done := false } : Scheduler).update
        (DateTime.ofComponents Platform.esp32 2025 7 14 8 0 30)
      = { Scheduler.new.update (DateTime.ofComponents Platform.esp32 2025 7 14 8 0 0) with
          todayWatering1Done := true, todayWatering2Done := false,
          todayLinearMove1Done := false, todayLinearMove2Done := false } :=
  update_idempotent_same_date Scheduler.new
    (DateTime.ofComponents Platform.esp32 2025 7 14 8 0 0)
    (DateTime.ofComponents Platform.esp32 2025 7 14 8 0 30) true false false false (by decide)

/-- C7: when the day of the month of `t` differs from the stored `lastDay` (as it
always does for a freshly constructed scheduler), `update(t)` leaves all four
done-flags false, exactly as `resetDailyTasks()` does from any state, stores the
day of `t`, and a following `isTimeToWater` at 08:00 returns true. -/
theorem update_new_day (s : Scheduler) (t : DateTime) (h : s.lastDay ≠ (t.day : Int)) :
    s.update t = { s.resetDailyTasks with lastDay := (t.day : Int) } ∧
    (s.update t).todayWatering1Done = false ∧ (s.update t).todayWatering2Done = false ∧
    (s.update t).todayLinearMove1Done = false ∧ (s.update t).todayLinearMove2Done = false ∧
    (s.update t).lastDay = (t.day : Int) ∧
    (∀ s0 : Scheduler, s0.resetDailyTasks.todayWatering1Done = false ∧
      s0.resetDailyTasks.todayWatering2Done = false ∧
      s0.resetDailyTasks.todayLinearMove1Done = false ∧
      s0.resetDailyTasks.todayLinearMove2Done = false ∧
      s0.resetDailyTasks.lastDay = s0.lastDay) ∧
    (∀ t8 : DateTime, t8.hour = 8 → t8.minute = 0 → ((s.update t).isTimeToWater t8).1 = true) ∧
    Scheduler.new.lastDay ≠ (t.day : Int) := by
  have e := update_of_lastDay_ne s t h
  refine ⟨by simp [Scheduler.update, h], by simp [e], by simp [e], by simp [e], by simp [e],
    by simp [e], fun s0 => by simp [Scheduler.resetDailyTasks], ?_, ?_⟩
  · intro t8 h8 hm
    rw [isTimeToWater_fst]
    exact Or.inl ⟨h8, hm, by simp [e]⟩
  · simp only [Scheduler.new]
    omega

/-- Witness for C7: the first update of a fresh scheduler, on 2025-07-14. -/
theorem update_new_day_witness :
    (Scheduler.new.update (DateTime.ofComponents Platform.esp32 2025 7 14 12 0 0)).lastDay = 14 ∧
    ((Scheduler.new.update (DateTime.ofComponents Platform.esp32 2025 7 14 12 0 0)).isTimeToWater
      (DateTime.ofComponents Platform.esp32 2025 7 14 8 0 0)).1 = true :=
  ⟨(update_new_day Scheduler.new (DateTime.ofComponents Platform.esp32 2025 7 14 12 0 0)
      (by decide)).2.2.2.2.2.1,
   (update_new_day Scheduler.new (DateTime.ofComponents Platform.esp32 2025 7 14 12 0 0)
      (by decide)).2.2.2.2.2.2.2.1 _ rfl rfl⟩

/-- C8: `isTimeToWater` returns true exactly at 08:00 with the first watering
flag clear or at 18:00 with the second clear, and then sets exactly that flag;
`isTimeToMovePlant` does the same for 10:00 and 15:00; a call that returns false
leaves the scheduler unchanged; the seconds of `t` play no part. -/
theorem daily_slot_checks (s : Scheduler) (t : DateTime) :
    ((s.isTimeToWater t).1 = true ↔
      (t.hour = 8 ∧ t.minute = 0 ∧ s.todayWatering1Done = false) ∨
      (t.hour = 18 ∧ t.minute = 0 ∧ s.todayWatering2Done = false)) ∧
    (t.hour = 8 ∧ t.minute = 0 ∧ s.todayWatering1Done = false →
      (s.isTimeToWater t).2 = { s with todayWatering1Done := true }) ∧
    (t.hour = 18 ∧ t.minute = 0 ∧ s.todayWatering2Done = false →
      (s.isTimeToWater t).2 = { s with todayWatering2Done := true }) ∧
    ((s.isTimeToWater t).1 = false → (s.isTimeToWater t).2 = s) ∧
    ((s.isTimeToMovePlant t).1 = true ↔
      (t.hour = 10 ∧ t.minute = 0 ∧ s.todayLinearMove1Done = false) ∨
      (t.hour = 15 ∧ t.minute = 0 ∧ s.todayLinearMove2Done = false)) ∧
    (t.hour = 10 ∧ t.minute = 0 ∧ s.todayLinearMove1Done = false →
      (s.isTimeToMovePlant t).2 = { s with todayLinearMove1Done := true }) ∧
    (t.hour = 15 ∧ t.minute = 0 ∧ s.todayLinearMove2Done = false →
      (s.isTimeToMovePlant t).2 = { s with todayLinearMove2Done := true }) ∧
    ((s.isTimeToMovePlant t).1 = false → (s.isTimeToMovePlant t).2 = s) ∧
    (∀ sec : Nat, s.isTimeToWater { t with second := sec } = s.isTimeToWater t ∧
      s.isTimeToMovePlant { t with second := sec } = s.isTimeToMovePlant t) := by
  refine ⟨isTimeToWater_fst s t, ?_, ?_, ?_, isTimeToMovePlant_fst s t, ?_, ?_, ?_, ?_⟩
  · rintro ⟨h1, h2, h3⟩
    simp [Scheduler.isTimeToWater, WATERING_HOUR_1, WATERING_MINUTE, h1, h2, h3]
  · rintro ⟨h1, h2, h3⟩
    simp [Scheduler.isTimeToWater, WATERING_HOUR_1, WATERING_HOUR_2, WATERING_MINUTE, h1, h2, h3]
  · unfold Scheduler.isTimeToWater
    simp only
    split_ifs <;> simp
  · rintro ⟨h1, h2, h3⟩
    simp [Scheduler.isTimeToMovePlant, LINEAR_MOVE_HOUR_1, LINEAR_MOVE_MINUTE, h1, h2, h3]
  · rintro ⟨h1, h2, h3⟩
    simp [Scheduler.isTimeToMovePlant, LINEAR_MOVE_HOUR_1, LINEAR_MOVE_HOUR_2,
      LINEAR_MOVE_MINUTE, h1, h2, h3]
  · unfold Scheduler.isTimeToMovePlant
    simp only
    split_ifs <;> simp
  · intro sec
    exact ⟨rfl, rfl⟩

/-! ## Scheduler: time-based control -/

theorem timeBasedControl_fst (s : Scheduler) (t : DateTime) (a : ActuatorManager) (ms : Nat) :
    (s.timeBasedControl t a ms).1 = ((s.isTimeToWater t).2.isTimeToMovePlant t).2 := rfl

/-- The method invocations one `timeBasedControl` call makes, in order. -/
theorem timeBasedControl_callsSince (s : Scheduler) (t : DateTime) (a : ActuatorManager)
    (ms : Nat) :
    a.callsSince (s.timeBasedControl t a ms).2 =
      (if a.ledStatus = Scheduler.isTimeForLED t then []
        else [ActuatorCall.activateLED (Scheduler.isTimeForLED t)])
      ++ (if (s.isTimeToWater t).1 then
            ActuatorCall.startWatering ::
              (if a.wateringActive then [] else [ActuatorCall.activatePumps true])
          else [])
      ++ (if ((s.isTimeToWater t).2.isTimeToMovePlant t).1 then
            [ActuatorCall.moveLinearActuator] else []) := by
  unfold Scheduler.timeBasedControl ActuatorManager.callsSince
  rcases a with ⟨pump, fan, led, wat, st, calls⟩
  simp only [ActuatorManager.isLEDActive]
  cases hl : Scheduler.isTimeForLED t <;> cases led <;>
    cases hw : (s.isTimeToWater t).1 <;> cases hm : ((s.isTimeToWater t).2.isTimeToMovePlant t).1 <;>
    cases wat <;>
    simp [ActuatorManager.activateLED, ActuatorManager.startWatering,
      ActuatorManager.activatePumps, ActuatorManager.moveLinearActuator]

theorem startWatering_mem_callsSince (s : Scheduler) (t : DateTime) (a : ActuatorManager)
    (ms : Nat) :
    ActuatorCall.startWatering ∈ a.callsSince (s.timeBasedControl t a ms).2 ↔
      (s.isTimeToWater t).1 = true := by
  rw [timeBasedControl_callsSince]
  cases hw : (s.isTimeToWater t).1 <;> simp

theorem moveLinearActuator_mem_callsSince (s : Scheduler) (t : DateTime) (a : ActuatorManager)
    (ms : Nat) :
    ActuatorCall.moveLinearActuator ∈ a.callsSince (s.timeBasedControl t a ms).2 ↔
      ((s.isTimeToWater t).2.isTimeToMovePlant t).1 = true := by
  rw [timeBasedControl_callsSince]
  cases hm : ((s.isTimeToWater t).2.isTimeToMovePlant t).1 <;> simp

theorem timeBasedControl_ledStatus (s : Scheduler) (t : DateTime) (a : ActuatorManager)
    (ms : Nat) :
    (s.timeBasedControl t a ms).2.ledStatus = Scheduler.isTimeForLED t := by
  unfold Scheduler.timeBasedControl
  rcases a with ⟨pump, fan, led, wat, st, calls⟩
  simp only [ActuatorManager.isLEDActive]
  cases hl : Scheduler.isTimeForLED t <;> cases led <;>
    cases hw : (s.isTimeToWater t).1 <;> cases hm : ((s.isTimeToWater t).2.isTimeToMovePlant t).1 <;>
    cases wat <;>
    simp [ActuatorManager.activateLED, ActuatorManager.startWatering,
      ActuatorManager.activatePumps, ActuatorManager.moveLinearActuator]

theorem timeBasedControl_scheduler (s : Scheduler) (t : DateTime) (a : ActuatorManager)
    (ms : Nat) :
    (s.timeBasedControl t a ms).1 =
      { todayWatering1Done := s.todayWatering1Done || decide (t.hour = 8 ∧ t.minute = 0)
        todayWatering2Done := s.todayWatering2Done || decide (t.hour = 18 ∧ t.minute = 0)
        todayLinearMove1Done := s.todayLinearMove1Done || decide (t.hour = 10 ∧ t.minute = 0)
        todayLinearMove2Done := s.todayLinearMove2Done || decide (t.hour = 15 ∧ t.minute = 0)
        lastDay := s.lastDay } := by
  rw [timeBasedControl_fst, isTimeToMovePlant_snd, isTimeToWater_snd]

theorem wateringFirings_8_le (calls : List SchedulerCall) : ∀ (s : Scheduler) (a : ActuatorManager),
    (∀ c ∈ calls, (c.time.day : Int) = s.lastDay) →
    wateringFirings 8 s a calls ≤ (if s.todayWatering1Done then 0 else 1) := by
  induction calls with
  | nil => intro s a _; simp [wateringFirings]
  | cons c rest ih =>
      intro s a h
      have hrest : ∀ c ∈ rest, (c.time.day : Int) = s.lastDay :=
        fun c hc => h c (List.mem_cons_of_mem _ hc)
      cases c with
      | update t =>
          have ht := h (SchedulerCall.update t) (List.mem_cons_self _ _)
          simp only [wateringFirings]
          rw [update_of_lastDay_eq s t ht.symm]
          exact ih s a hrest
      | timeBasedControl t ms =>
          have hs := timeBasedControl_scheduler s t a ms
          have hb := ih (s.timeBasedControl t a ms).1 (s.timeBasedControl t a ms).2
            (by rw [hs]; exact hrest)
          simp only [wateringFirings, startWatering_mem_callsSince, isTimeToWater_fst]
          generalize wateringFirings 8 (s.timeBasedControl t a ms).1 (s.timeBasedControl t a ms).2
            rest = N at hb ⊢
          rw [hs] at hb
          by_cases h8 : t.hour = 8 <;> by_cases hm : t.minute = 0 <;>
            cases hw : s.todayWatering1Done <;> simp_all

theorem wateringFirings_18_le (calls : List SchedulerCall) : ∀ (s : Scheduler) (a : ActuatorManager),
    (∀ c ∈ calls, (c.time.day : Int) = s.lastDay) →
    wateringFirings 18 s a calls ≤ (if s.todayWatering2Done then 0 else 1) := by
  induction calls with
  | nil => intro s a _; simp [wateringFirings]
  | cons c rest ih =>
      intro s a h
      have hrest : ∀ c ∈ rest, (c.time.day : Int) = s.lastDay :=
        fun c hc => h c (List.mem_cons_of_mem _ hc)
      cases c with
      | update t =>
          have ht := h (SchedulerCall.update t) (List.mem_cons_self _ _)
          simp only [wateringFirings]
          rw [update_of_lastDay_eq s t ht.symm]
          exact ih s a hrest
      | timeBasedControl t ms =>
          have hs := timeBasedControl_scheduler s t a ms
          have hb := ih (s.timeBasedControl t a ms).1 (s.timeBasedControl t a ms).2
            (by rw [hs]; exact hrest)
          simp only [wateringFirings, startWatering_mem_callsSince, isTimeToWater_fst]
          generalize wateringFirings 18 (s.timeBasedControl t a ms).1 (s.timeBasedControl t a ms).2
            rest = N at hb ⊢
          rw [hs] at hb
          by_cases h8 : t.hour = 18 <;> by_cases hm : t.minute = 0 <;>
            cases hw : s.todayWatering2Done <;> simp_all

theorem movementFirings_10_le (calls : List SchedulerCall) : ∀ (s : Scheduler) (a : ActuatorManager),
    (∀ c ∈ calls, (c.time.day : Int) = s.lastDay) →
    movementFirings 10 s a calls ≤ (if s.todayLinearMove1Done then 0 else 1) := by
  induction calls with
  | nil => intro s a _; simp [movementFirings]
  | cons c rest ih =>
      intro s a h
      have hrest : ∀ c ∈ rest, (c.time.day : Int) = s.lastDay :=
        fun c hc => h c (List.mem_cons_of_mem _ hc)
      cases c with
      | update t =>
          have ht := h (SchedulerCall.update t) (List.mem_cons_self _ _)
          simp only [movementFirings]
          rw [update_of_lastDay_eq s t ht.symm]
          exact ih s a hrest
      | timeBasedControl t ms =>
          have hs := timeBasedControl_scheduler s t a ms
          have hb := ih (s.timeBasedControl t a ms).1 (s.timeBasedControl t a ms).2
            (by rw [hs]; exact hrest)
          simp only [movementFirings, moveLinearActuator_mem_callsSince, isTimeToMovePlant_fst,
            isTimeToWater_snd]
          generalize movementFirings 10 (s.timeBasedControl t a ms).1 (s.timeBasedControl t a ms).2
            rest = N at hb ⊢
          rw [hs] at hb
          by_cases h8 : t.hour = 10 <;> by_cases hm : t.minute = 0 <;>
            cases hw : s.todayLinearMove1Done <;> simp_all

theorem movementFirings_15_le (calls : List SchedulerCall) : ∀ (s : Scheduler) (a : ActuatorManager),
    (∀ c ∈ calls, (c.time.day : Int) = s.lastDay) →
    movementFirings 15 s a calls ≤ (if s.todayLinearMove2Done then 0 else 1) := by
  induction calls with
  | nil => intro s a _; simp [movementFirings]
  | cons c rest ih =>
      intro s a h
      have hrest : ∀ c ∈ rest, (c.time.day : Int) = s.lastDay :=
        fun c hc => h c (List.mem_cons_of_mem _ hc)
      cases c with
      | update t =>
          have ht := h (SchedulerCall.update t) (List.mem_cons_self _ _)
          simp only [movementFirings]
          rw [update_of_lastDay_eq s t ht.symm]
          exact ih s a hrest
      | timeBasedControl t ms =>
          have hs := timeBasedControl_scheduler s t a ms
          have hb := ih (s.timeBasedControl t a ms).1 (s.timeBasedControl t a ms).2
            (by rw [hs]; exact hrest)
          simp only [movementFirings, moveLinearActuator_mem_callsSince, isTimeToMovePlant_fst,
            isTimeToWater_snd]
          generalize movementFirings 15 (s.timeBasedControl t a ms).1 (s.timeBasedControl t a ms).2
            rest = N at hb ⊢
          rw [hs] at hb
          by_cases h8 : t.hour = 15 <;> by_cases hm : t.minute = 0 <;>
            cases hw : s.todayLinearMove2Done <;> simp_all

/-- C9 (counterexample): from a fresh scheduler the calls
`timeBasedControl` at 08:00:00, `update` at 08:00:10 and `timeBasedControl` at
08:00:30, all on 2025-07-14, request the 08:00 watering twice. -/
theorem watering_fires_twice_before_first_update :
    (∀ c ∈ [SchedulerCall.timeBasedControl (DateTime.ofComponents Platform.esp32 2025 7 14 8 0 0) 1000,
             SchedulerCall.update (DateTime.ofComponents Platform.esp32 2025 7 14 8 0 10),
             SchedulerCall.timeBasedControl (DateTime.ofComponents Platform.esp32 2025 7 14 8 0 30) 31000],
      c.time.sameDate (DateTime.ofComponents Platform.esp32 2025 7 14 8 0 0)) ∧
    wateringFirings 8 Scheduler.new ActuatorManager.new
      [SchedulerCall.timeBasedControl (DateTime.ofComponents Platform.esp32 2025 7 14 8 0 0) 1000,
       SchedulerCall.update (DateTime.ofComponents Platform.esp32 2025 7 14 8 0 10),
       SchedulerCall.timeBasedControl (DateTime.ofComponents Platform.esp32 2025 7 14 8 0 30) 31000]
      = 2 := by
  decide

/-- C9 (amended): in every sequence of `update` / `timeBasedControl` calls that
starts with an `update` and whose times all lie on one calendar date, from any
scheduler and actuator state, each of the four daily slots (watering at 08:00 and
18:00, movement at 10:00 and 15:00) fires at most once. -/
theorem daily_slots_fire_at_most_once (s : Scheduler) (a : ActuatorManager) (t0 : DateTime)
    (calls : List SchedulerCall) (h : ∀ c ∈ calls, c.time.sameDate t0) :
    wateringFirings 8 s a (SchedulerCall.update t0 :: calls) ≤ 1 ∧
    wateringFirings 18 s a (SchedulerCall.update t0 :: calls) ≤ 1 ∧
    movementFirings 10 s a (SchedulerCall.update t0 :: calls) ≤ 1 ∧
    movementFirings 15 s a (SchedulerCall.update t0 :: calls) ≤ 1 := by
  have hday : ∀ c ∈ calls, (c.time.day : Int) = (s.update t0).lastDay := by
    intro c hc
    rw [update_lastDay]
    exact_mod_cast (h c hc).2.2
  simp only [wateringFirings, movementFirings]
  refine ⟨le_trans (wateringFirings_8_le calls _ a hday) ?_,
    le_trans (wateringFirings_18_le calls _ a hday) ?_,
    le_trans (movementFirings_10_le calls _ a hday) ?_,
    le_trans (movementFirings_15_le calls _ a hday) ?_⟩ <;> split_ifs <;> omega

/-- Witness for C9 (amended): `update`, then `timeBasedControl` at 08:00:00 and,
after another `update`, at 08:00:30 of 2025-07-14. -/
theorem daily_slots_fire_at_most_once_witness :
    wateringFirings 8 Scheduler.new ActuatorManager.new
      (SchedulerCall.update (DateTime.ofComponents Platform.esp32 2025 7 14 8 0 0) ::
        [SchedulerCall.timeBasedControl (DateTime.ofComponents Platform.esp32 2025 7 14 8 0 0) 1000,
         SchedulerCall.update (DateTime.ofComponents Platform.esp32 2025 7 14 8 0 30),
         SchedulerCall.timeBasedControl (DateTime.ofComponents Platform.esp32 2025 7 14 8 0 30) 31000])
      ≤ 1 :=
  (daily_slots_fire_at_most_once Scheduler.new ActuatorManager.new
    (DateTime.ofComponents Platform.esp32 2025 7 14 8 0 0)
    [SchedulerCall.timeBasedControl (DateTime.ofComponents Platform.esp32 2025 7 14 8 0 0) 1000,
     SchedulerCall.update (DateTime.ofComponents Platform.esp32 2025 7 14 8 0 30),
     SchedulerCall.timeBasedControl (DateTime.ofComponents Platform.esp32 2025 7 14 8 0 30) 31000]
    (by decide)).1

/-- C10: after `timeBasedControl(t, actuators)` the LED is active exactly when
`6 <= t.hour() < 22`, the value of `isTimeForLED(t)` (hour 5 off, 6 on, 21 on,
22 off), and the call issues `activateLED` once, with that value, when the prior
LED state differs from it and not at all otherwise. -/
theorem timeBasedControl_led (s : Scheduler) (t : DateTime) (a : ActuatorManager) (ms : Nat) :
    (s.timeBasedControl t a ms).2.isLEDActive = Scheduler.isTimeForLED t ∧
    (Scheduler.isTimeForLED t = true ↔ 6 ≤ t.hour ∧ t.hour < 22) ∧
    (t.hour = 5 → (s.timeBasedControl t a ms).2.isLEDActive = false) ∧
    (t.hour = 6 → (s.timeBasedControl t a ms).2.isLEDActive = true) ∧
    (t.hour = 21 → (s.timeBasedControl t a ms).2.isLEDActive = true) ∧
    (t.hour = 22 → (s.timeBasedControl t a ms).2.isLEDActive = false) ∧
    (∀ b : Bool, (a.callsSince (s.timeBasedControl t a ms).2).count (ActuatorCall.activateLED b)
      = if a.isLEDActive ≠ Scheduler.isTimeForLED t ∧ b = Scheduler.isTimeForLED t then 1 else 0) := by
  have hled : (s.timeBasedControl t a ms).2.isLEDActive = Scheduler.isTimeForLED t :=
    timeBasedControl_ledStatus s t a ms
  have hiff : Scheduler.isTimeForLED t = true ↔ 6 ≤ t.hour ∧ t.hour < 22 := by
    simp [Scheduler.isTimeForLED, LED_ON_HOUR, LED_OFF_HOUR]
  refine ⟨hled, hiff, ?_, ?_, ?_, ?_, ?_⟩
  · intro h5
    rw [hled]
    simp [Scheduler.isTimeForLED, LED_ON_HOUR, LED_OFF_HOUR, h5]
  · intro h6
    rw [hled]
    simp [Scheduler.isTimeForLED, LED_ON_HOUR, LED_OFF_HOUR, h6]
  · intro h21
    rw [hled]
    simp [Scheduler.isTimeForLED, LED_ON_HOUR, LED_OFF_HOUR, h21]
  · intro h22
    rw [hled]
    simp [Scheduler.isTimeForLED, LED_ON_HOUR, LED_OFF_HOUR, h22]
  · intro b
    rw [timeBasedControl_callsSince]
    clear hled
    rcases a with ⟨pump, fan, led, wat, st, calls⟩
    simp only [ActuatorManager.isLEDActive]
    cases hl : Scheduler.isTimeForLED t <;> cases led <;> cases b <;> cases wat <;>
      cases hw : (s.isTimeToWater t).1 <;>
      cases hm : ((s.isTimeToWater t).2.isTimeToMovePlant t).1 <;> simp

/-! ## Float comparisons -/

theorem FloatVal.le_eq_not_lt (a b : FloatVal) (ha : a.isnan = false) (hb : b.isnan = false) :
    a.le b = !b.lt a := by
  cases a <;> cases b <;> simp_all [FloatVal.le, FloatVal.lt, FloatVal.isnan]
  rename_i x y
  by_cases h : y < x
  · simp [h, not_le.mpr h]
  · simp [h, not_lt.mp h]

theorem FloatVal.lt_nan_left (b : FloatVal) : FloatVal.lt FloatVal.nan b = false := by
  cases b <;> rfl

theorem FloatVal.lt_nan_right (a : FloatVal) : FloatVal.lt a FloatVal.nan = false := by
  cases a <;> rfl

theorem FloatVal.le_nan_left (b : FloatVal) : FloatVal.le FloatVal.nan b = false := by
  cases b <;> rfl

theorem FloatVal.le_nan_right (a : FloatVal) : FloatVal.le a FloatVal.nan = false := by
  cases a <;> rfl

/-! ## Sensor validity -/

theorem isValidReading_iff (s : SensorManager) :
    s.isValidReading = true ↔
      s.temperature.isnan = false ∧ s.humidity.isnan = false ∧
      FloatVal.lt (FloatVal.finite (-40)) s.temperature = true ∧
      FloatVal.lt s.temperature (FloatVal.finite 80) = true ∧
      FloatVal.le (FloatVal.finite 0) s.humidity = true ∧
      FloatVal.le s.humidity (FloatVal.finite 100) = true := by
  simp only [SensorManager.isValidReading, FloatVal.gt, FloatVal.ge, Bool.and_eq_true,
    Bool.not_eq_true', and_assoc]

/-- C15: `isValidReading()` is true exactly when temperature and humidity are
not NaN, `-40 < temperature < 80` and `0 <= humidity <= 100`; for finite values
this reads `-40 < t`, `t < 80`, `0 <= h`, `h <= 100`, so -40 and 80 are invalid
temperatures and 0 and 100 valid humidities; NaN and infinite values are
invalid. -/
theorem isValidReading_spec (s : SensorManager) :
    (s.isValidReading = true ↔
      s.temperature.isnan = false ∧ s.humidity.isnan = false ∧
      FloatVal.lt (FloatVal.finite (-40)) s.temperature = true ∧
      FloatVal.lt s.temperature (FloatVal.finite 80) = true ∧
      FloatVal.le (FloatVal.finite 0) s.humidity = true ∧
      FloatVal.le s.humidity (FloatVal.finite 100) = true) ∧
    (∀ t h : ℚ, ({ s with temperature := FloatVal.finite t, humidity := FloatVal.finite h } :
        SensorManager).isValidReading = true ↔ -40 < t ∧ t < 80 ∧ 0 ≤ h ∧ h ≤ 100) ∧
    (∀ h : FloatVal, ({ s with temperature := FloatVal.finite (-40), humidity := h } :
        SensorManager).isValidReading = false) ∧
    (∀ h : FloatVal, ({ s with temperature := FloatVal.finite 80, humidity := h } :
        SensorManager).isValidReading = false) ∧
    (∀ t : ℚ, -40 < t → t < 80 →
      ({ s with temperature := FloatVal.finite t, humidity := FloatVal.finite 0 } :
        SensorManager).isValidReading = true ∧
      ({ s with temperature := FloatVal.finite t, humidity := FloatVal.finite 100 } :
        SensorManager).isValidReading = true) ∧
    (∀ x : FloatVal, ({ s with temperature := FloatVal.nan, humidity := x } :
        SensorManager).isValidReading = false ∧
      ({ s with temperature := x, humidity := FloatVal.nan } :
        SensorManager).isValidReading = false ∧
      ({ s with temperature := FloatVal.posInf, humidity := x } :
        SensorManager).isValidReading = false ∧
      ({ s with temperature := FloatVal.negInf, humidity := x } :
        SensorManager).isValidReading = false ∧
      ({ s with temperature := x, humidity := FloatVal.posInf } :
        SensorManager).isValidReading = false ∧
      ({ s with temperature := x, humidity := FloatVal.negInf } :
        SensorManager).isValidReading = false) := by
  refine ⟨isValidReading_iff s, ?_, ?_, ?_, ?_, ?_⟩
  · intro t h
    simp [SensorManager.isValidReading, FloatVal.gt, FloatVal.ge, FloatVal.lt, FloatVal.le,
      FloatVal.isnan, and_assoc]
  · intro h
    simp [SensorManager.isValidReading, FloatVal.gt, FloatVal.ge, FloatVal.lt, FloatVal.le,
      FloatVal.isnan]
  · intro h
    simp [SensorManager.isValidReading, FloatVal.gt, FloatVal.ge, FloatVal.lt, FloatVal.le,
      FloatVal.isnan]
  · intro t h1 h2
    simp [SensorManager.isValidReading, FloatVal.gt, FloatVal.ge, FloatVal.lt, FloatVal.le,
      FloatVal.isnan, h1, h2]
  · intro x
    cases x <;>
      simp [SensorManager.isValidReading, FloatVal.gt, FloatVal.ge, FloatVal.lt, FloatVal.le,
        FloatVal.isnan]

/-! ## Environment-based control: the three blocks -/

theorem fanControl_fanStatus (s : SensorManager) (a : ActuatorManager) :
    (Scheduler.fanControl s a).fanStatus =
      if s.temperature.gt OPTIMAL_TEMP_MAX then true
      else if s.temperature.lt OPTIMAL_TEMP_MIN then false
      else if s.humidity.gt OPTIMAL_HUMIDITY_MAX && !a.fanStatus then true
      else if s.humidity.le OPTIMAL_HUMIDITY_MAX && a.fanStatus
          && s.temperature.le OPTIMAL_TEMP_MAX then false
      else a.fanStatus := by
  rcases a with ⟨pump, fan, led, wat, st, calls⟩
  simp only [Scheduler.fanControl, SensorManager.getTemperature, SensorManager.getHumidity,
    ActuatorManager.isFanActive]
  rcases Bool.eq_false_or_eq_true (s.temperature.gt OPTIMAL_TEMP_MAX) with h1 | h1 <;>
    rcases Bool.eq_false_or_eq_true (s.temperature.lt OPTIMAL_TEMP_MIN) with h2 | h2 <;>
    rcases Bool.eq_false_or_eq_true (s.humidity.gt OPTIMAL_HUMIDITY_MAX) with h3 | h3 <;>
    rcases Bool.eq_false_or_eq_true (s.humidity.le OPTIMAL_HUMIDITY_MAX) with h4 | h4 <;>
    rcases Bool.eq_false_or_eq_true (s.temperature.le OPTIMAL_TEMP_MAX) with h5 | h5 <;>
    cases fan <;>
    simp [ActuatorManager.activateFans, h1, h2, h3, h4, h5]

theorem fanControl_frame (s : SensorManager) (a : ActuatorManager) :
    (Scheduler.fanControl s a).pumpStatus = a.pumpStatus ∧
    (Scheduler.fanControl s a).ledStatus = a.ledStatus ∧
    (Scheduler.fanControl s a).wateringActive = a.wateringActive ∧
    (Scheduler.fanControl s a).wateringStartTime = a.wateringStartTime ∧
    (Scheduler.fanControl s a).calls = a.calls ++
      (if (Scheduler.fanControl s a).fanStatus = a.fanStatus then []
        else [ActuatorCall.activateFans (Scheduler.fanControl s a).fanStatus]) := by
  rcases a with ⟨pump, fan, led, wat, st, calls⟩
  simp only [Scheduler.fanControl, SensorManager.getTemperature, SensorManager.getHumidity,
    ActuatorManager.isFanActive]
  rcases Bool.eq_false_or_eq_true (s.temperature.gt OPTIMAL_TEMP_MAX) with h1 | h1 <;>
    rcases Bool.eq_false_or_eq_true (s.temperature.lt OPTIMAL_TEMP_MIN) with h2 | h2 <;>
    rcases Bool.eq_false_or_eq_true (s.humidity.gt OPTIMAL_HUMIDITY_MAX) with h3 | h3 <;>
    rcases Bool.eq_false_or_eq_true (s.humidity.le OPTIMAL_HUMIDITY_MAX) with h4 | h4 <;>
    rcases Bool.eq_false_or_eq_true (s.temperature.le OPTIMAL_TEMP_MAX) with h5 | h5 <;>
    cases fan <;>
    simp [ActuatorManager.activateFans, h1, h2, h3, h4, h5]

theorem humidityWatering_eq (s : SensorManager) (a : ActuatorManager) :
    Scheduler.humidityWatering s a =
      { a with calls := a.calls ++
          (if s.humidity.lt OPTIMAL_HUMIDITY_MIN = true ∧ a.wateringActive = false
              ∧ a.pumpStatus = false then
            [ActuatorCall.activatePumps true, ActuatorCall.activatePumps false]
          else []) } := by
  rcases a with ⟨pump, fan, led, wat, st, calls⟩
  simp only [Scheduler.humidityWatering, SensorManager.getHumidity,
    ActuatorManager.isWateringActive, ActuatorManager.isPumpActive]
  rcases Bool.eq_false_or_eq_true (s.humidity.lt OPTIMAL_HUMIDITY_MIN) with h1 | h1 <;>
    cases wat <;> cases pump <;>
    simp [ActuatorManager.activatePumps, h1]

theorem lightControl_frame (s : SensorManager) (a : ActuatorManager) :
    (Scheduler.lightControl s a).pumpStatus = a.pumpStatus ∧
    (Scheduler.lightControl s a).fanStatus = a.fanStatus ∧
    (Scheduler.lightControl s a).wateringActive = a.wateringActive ∧
    (Scheduler.lightControl s a).wateringStartTime = a.wateringStartTime ∧
    (Scheduler.lightControl s a).calls = a.calls ++
      (if (Scheduler.lightControl s a).ledStatus = a.ledStatus then []
        else [ActuatorCall.activateLED (Scheduler.lightControl s a).ledStatus]) := by
  rcases a with ⟨pump, fan, led, wat, st, calls⟩
  simp only [Scheduler.lightControl, SensorManager.getLightLevel, SensorManager.getCurrentTime,
    ActuatorManager.isLEDActive]
  rcases Bool.eq_false_or_eq_true (Scheduler.isTimeForLED s.currentTime) with h1 | h1 <;>
    rcases Bool.eq_false_or_eq_true (decide (s.lightLevel < OPTIMAL_LIGHT_MIN)) with h2 | h2 <;>
    rcases Bool.eq_false_or_eq_true (decide (s.lightLevel > OPTIMAL_LIGHT_MAX)) with h3 | h3 <;>
    cases led <;>
    simp [ActuatorManager.activateLED, h1, h2, h3]

/-! ## Environment-based control: the whole call -/

theorem environmentalControl_fanStatus (s : SensorManager) (a : ActuatorManager) :
    (Scheduler.environmentalControl s a).fanStatus = (Scheduler.fanControl s a).fanStatus := by
  unfold Scheduler.environmentalControl
  rw [(lightControl_frame s _).2.1, humidityWatering_eq]

theorem environmentalControl_frame (s : SensorManager) (a : ActuatorManager) :
    (Scheduler.environmentalControl s a).pumpStatus = a.pumpStatus ∧
    (Scheduler.environmentalControl s a).wateringActive = a.wateringActive ∧
    (Scheduler.environmentalControl s a).wateringStartTime = a.wateringStartTime := by
  unfold Scheduler.environmentalControl
  obtain ⟨h1, _, h3, h4, _⟩ := lightControl_frame s
    (Scheduler.humidityWatering s (Scheduler.fanControl s a))
  obtain ⟨g1, _, g3, g4, _⟩ := fanControl_frame s a
  rw [h1, h3, h4, humidityWatering_eq]
  exact ⟨g1, g3, g4⟩

/-- The method invocations one `environmentalControl` call makes: a fan command
when the fan state changes, the pump pulse, an LED command when the LED state
changes. -/
theorem environmentalControl_callsSince (s : SensorManager) (a : ActuatorManager) :
    (Scheduler.environmentalControl s a).calls =
        a.calls ++ a.callsSince (Scheduler.environmentalControl s a) ∧
    a.callsSince (Scheduler.environmentalControl s a) =
      (if (Scheduler.environmentalControl s a).fanStatus = a.fanStatus then []
        else [ActuatorCall.activateFans (Scheduler.environmentalControl s a).fanStatus])
      ++ (if s.humidity.lt OPTIMAL_HUMIDITY_MIN = true ∧ a.wateringActive = false
              ∧ a.pumpStatus = false then
            [ActuatorCall.activatePumps true, ActuatorCall.activatePumps false]
          else [])
      ++ (if (Scheduler.environmentalControl s a).ledStatus = a.ledStatus then []
          else [ActuatorCall.activateLED (Scheduler.environmentalControl s a).ledStatus]) := by
  have hf := environmentalControl_fanStatus s a
  obtain ⟨g1, g2, g3, g4, g5⟩ := fanControl_frame s a
  have hc : (Scheduler.environmentalControl s a).calls = a.calls ++
      ((if (Scheduler.environmentalControl s a).fanStatus = a.fanStatus then []
        else [ActuatorCall.activateFans (Scheduler.environmentalControl s a).fanStatus])
      ++ (if s.humidity.lt OPTIMAL_HUMIDITY_MIN = true ∧ a.wateringActive = false
              ∧ a.pumpStatus = false then
            [ActuatorCall.activatePumps true, ActuatorCall.activatePumps false]
          else [])
      ++ (if (Scheduler.environmentalControl s a).ledStatus = a.ledStatus then []
          else [ActuatorCall.activateLED (Scheduler.environmentalControl s a).ledStatus])) := by
    rw [hf]
    unfold Scheduler.environmentalControl
    obtain ⟨_, _, _, _, h5⟩ := lightControl_frame s
      (Scheduler.humidityWatering s (Scheduler.fanControl s a))
    rw [h5, humidityWatering_eq]
    simp only [g2, g3, g1, g5, List.append_assoc]
  constructor
  · unfold ActuatorManager.callsSince
    rw [hc, List.drop_left]
  · unfold ActuatorManager.callsSince
    rw [hc, List.drop_left]

theorem temperature_above_not_below (t : FloatVal) (h : t.gt OPTIMAL_TEMP_MAX = true) :
    t.lt OPTIMAL_TEMP_MIN = false := by
  cases t <;> simp_all [FloatVal.gt, FloatVal.lt, OPTIMAL_TEMP_MAX, OPTIMAL_TEMP_MIN]
  linarith

theorem environmentalControl_filter_fan (s : SensorManager) (a : ActuatorManager) :
    (a.callsSince (Scheduler.environmentalControl s a)).filter ActuatorCall.isFanCommand =
      if (Scheduler.environmentalControl s a).fanStatus = a.fanStatus then []
      else [ActuatorCall.activateFans (Scheduler.environmentalControl s a).fanStatus] := by
  rw [(environmentalControl_callsSince s a).2]
  simp only [List.filter_append]
  split_ifs <;> simp [ActuatorCall.isFanCommand]

theorem environmentalControl_filter_pump (s : SensorManager) (a : ActuatorManager) :
    (a.callsSince (Scheduler.environmentalControl s a)).filter ActuatorCall.isPumpCommand =
      if s.humidity.lt OPTIMAL_HUMIDITY_MIN = true ∧ a.wateringActive = false
          ∧ a.pumpStatus = false then
        [ActuatorCall.activatePumps true, ActuatorCall.activatePumps false]
      else [] := by
  rw [(environmentalControl_callsSince s a).2]
  simp only [List.filter_append]
  split_ifs <;> simp [ActuatorCall.isPumpCommand]

theorem environmentalControls_calls (l : List SensorManager) : ∀ a : ActuatorManager,
    (environmentalControls a l).calls = a.calls ++ a.callsSince (environmentalControls a l) := by
  induction l with
  | nil => intro a; simp [environmentalControls, ActuatorManager.callsSince]
  | cons s rest ih =>
      intro a
      have h1 := (environmentalControl_callsSince s a).1
      have h2 := ih (Scheduler.environmentalControl s a)
      simp only [environmentalControls]
      unfold ActuatorManager.callsSince
      rw [h2, h1, List.append_assoc, List.drop_left]

theorem environmentalControls_callsSince_cons (s : SensorManager) (rest : List SensorManager)
    (a : ActuatorManager) :
    a.callsSince (environmentalControls a (s :: rest)) =
      a.callsSince (Scheduler.environmentalControl s a) ++
        (Scheduler.environmentalControl s a).callsSince
          (environmentalControls (Scheduler.environmentalControl s a) rest) := by
  have h1 := (environmentalControl_callsSince s a).1
  have h2 := environmentalControls_calls rest (Scheduler.environmentalControl s a)
  simp only [environmentalControls]
  conv_lhs => unfold ActuatorManager.callsSince
  rw [h2, h1, List.append_assoc, List.drop_left]

/-- C11: for non-NaN temperature and humidity, after `environmentalControl` the
fan is active exactly when the temperature is above `OPTIMAL_TEMP_MAX`, or lies
in the band from `OPTIMAL_TEMP_MIN` to `OPTIMAL_TEMP_MAX` with the humidity above
`OPTIMAL_HUMIDITY_MAX`; below `OPTIMAL_TEMP_MIN` it is inactive.  For finite
values: exactly when `20 < t`, or `15 <= t <= 20` and `80 < h`. -/
theorem environmentalControl_fan_law (s : SensorManager) (a : ActuatorManager)
    (hT : s.temperature.isnan = false) (hH : s.humidity.isnan = false) :
    ((Scheduler.environmentalControl s a).isFanActive = true ↔
      s.temperature.gt OPTIMAL_TEMP_MAX = true ∨
      (OPTIMAL_TEMP_MIN.le s.temperature = true ∧ s.temperature.le OPTIMAL_TEMP_MAX = true ∧
        s.humidity.gt OPTIMAL_HUMIDITY_MAX = true)) ∧
    (s.temperature.lt OPTIMAL_TEMP_MIN = true →
      (Scheduler.environmentalControl s a).isFanActive = false) ∧
    (∀ t h : ℚ, s.temperature = FloatVal.finite t → s.humidity = FloatVal.finite h →
      ((Scheduler.environmentalControl s a).isFanActive = true ↔
        20 < t ∨ (15 ≤ t ∧ t ≤ 20 ∧ 80 < h))) := by
  have e1 : s.temperature.le OPTIMAL_TEMP_MAX = !s.temperature.gt OPTIMAL_TEMP_MAX :=
    FloatVal.le_eq_not_lt _ _ hT rfl
  have e2 : OPTIMAL_TEMP_MIN.le s.temperature = !s.temperature.lt OPTIMAL_TEMP_MIN :=
    FloatVal.le_eq_not_lt _ _ rfl hT
  have e3 : s.humidity.le OPTIMAL_HUMIDITY_MAX = !s.humidity.gt OPTIMAL_HUMIDITY_MAX :=
    FloatVal.le_eq_not_lt _ _ hH rfl
  have hx := temperature_above_not_below s.temperature
  have key : (Scheduler.environmentalControl s a).isFanActive = true ↔
      s.temperature.gt OPTIMAL_TEMP_MAX = true ∨
      (OPTIMAL_TEMP_MIN.le s.temperature = true ∧ s.temperature.le OPTIMAL_TEMP_MAX = true ∧
        s.humidity.gt OPTIMAL_HUMIDITY_MAX = true) := by
    rw [ActuatorManager.isFanActive, environmentalControl_fanStatus, fanControl_fanStatus, e1, e2,
      e3]
    rcases Bool.eq_false_or_eq_true (s.temperature.gt OPTIMAL_TEMP_MAX) with h1 | h1 <;>
      rcases Bool.eq_false_or_eq_true (s.temperature.lt OPTIMAL_TEMP_MIN) with h2 | h2 <;>
      rcases Bool.eq_false_or_eq_true (s.humidity.gt OPTIMAL_HUMIDITY_MAX) with h3 | h3 <;>
      cases hf : a.fanStatus <;> simp [h1, h2, h3]
  refine ⟨key, ?_, ?_⟩
  · intro hlt
    rw [ActuatorManager.isFanActive, environmentalControl_fanStatus, fanControl_fanStatus]
    rcases Bool.eq_false_or_eq_true (s.temperature.gt OPTIMAL_TEMP_MAX) with h1 | h1
    · have := hx h1
      rw [hlt] at this
      exact absurd this (by decide)
    · simp [h1, hlt]
  · intro t h ht hh
    rw [key, ht, hh]
    simp [FloatVal.gt, FloatVal.lt, FloatVal.le, OPTIMAL_TEMP_MAX, OPTIMAL_TEMP_MIN,
      OPTIMAL_HUMIDITY_MAX]

/-- Witness for C11: 26 degrees at 50 percent, fan off before. -/
theorem environmentalControl_fan_law_witness :
    (Scheduler.environmentalControl
      { SensorManager.new with temperature := FloatVal.finite 26, humidity := FloatVal.finite 50 }
      ActuatorManager.new).isFanActive = true :=
  ((environmentalControl_fan_law
      { SensorManager.new with temperature := FloatVal.finite 26, humidity := FloatVal.finite 50 }
      ActuatorManager.new rfl rfl).1).2 (Or.inl (by decide))

theorem environmentalControl_fan_on (s : SensorManager) (a : ActuatorManager)
    (h : s.temperature.gt OPTIMAL_TEMP_MAX = true) :
    (Scheduler.environmentalControl s a).fanStatus = true := by
  rw [environmentalControl_fanStatus, fanControl_fanStatus]
  simp [h]

/-- C12: in successive `environmentalControl` calls that all see a temperature
above `OPTIMAL_TEMP_MAX`, the only fan command is one `activateFans(true)`, issued
by the first call and only when the fan was off before it; every following call
issues no fan command, and the fan is on after each call. -/
theorem environmentalControl_fan_on_once (l : List SensorManager)
    (h : ∀ s ∈ l, s.temperature.gt OPTIMAL_TEMP_MAX = true) : ∀ a : ActuatorManager,
    (a.callsSince (environmentalControls a l)).filter ActuatorCall.isFanCommand =
      (if a.isFanActive = true ∨ l = [] then [] else [ActuatorCall.activateFans true]) ∧
    (l ≠ [] → (environmentalControls a l).isFanActive = true) := by
  induction l with
  | nil => intro a; simp [environmentalControls, ActuatorManager.callsSince]
  | cons s rest ih =>
      intro a
      have hs := h s (List.mem_cons_self _ _)
      have hon := environmentalControl_fan_on s a hs
      obtain ⟨ih1, ih2⟩ := ih (fun x hx => h x (List.mem_cons_of_mem _ hx))
        (Scheduler.environmentalControl s a)
      constructor
      · rw [environmentalControls_callsSince_cons, List.filter_append,
          environmentalControl_filter_fan, ih1, hon]
        simp only [ActuatorManager.isFanActive, hon]
        rcases Bool.eq_false_or_eq_true a.fanStatus with hf | hf <;> simp [hf]
      · intro _
        by_cases hr : rest = []
        · subst hr
          simpa [environmentalControls, ActuatorManager.isFanActive] using hon
        · simpa [environmentalControls] using ih2 hr

/-- Witness for C12: three calls at 26 degrees starting with the fan off. -/
theorem environmentalControl_fan_on_once_witness :
    (ActuatorManager.new.callsSince (environmentalControls ActuatorManager.new
      [{ SensorManager.new with temperature := FloatVal.finite 26 },
       { SensorManager.new with temperature := FloatVal.finite 26 },
       { SensorManager.new with temperature := FloatVal.finite 26 }])).filter
        ActuatorCall.isFanCommand
      = [ActuatorCall.activateFans true] :=
  (environmentalControl_fan_on_once
    [{ SensorManager.new with temperature := FloatVal.finite 26 },
     { SensorManager.new with temperature := FloatVal.finite 26 },
     { SensorManager.new with temperature := FloatVal.finite 26 }]
    (by decide) ActuatorManager.new).1

/-- C17: `environmentalControl` issues the pump pulse, `activatePumps(true)`
followed by `activatePumps(false)`, exactly when the humidity is below
`OPTIMAL_HUMIDITY_MIN` (for a finite value: below 60) and neither
`isWateringActive()` nor `isPumpActive()` holds; otherwise it issues no pump
command; pump and watering state are the same after the call as before. -/
theorem environmentalControl_pump_pulse (s : SensorManager) (a : ActuatorManager) :
    ((a.callsSince (Scheduler.environmentalControl s a)).filter ActuatorCall.isPumpCommand =
      if s.humidity.lt OPTIMAL_HUMIDITY_MIN = true ∧ a.isWateringActive = false
          ∧ a.isPumpActive = false then
        [ActuatorCall.activatePumps true, ActuatorCall.activatePumps false]
      else []) ∧
    (∀ h : ℚ, s.humidity = FloatVal.finite h →
      (s.humidity.lt OPTIMAL_HUMIDITY_MIN = true ↔ h < 60)) ∧
    (s.humidity.isnan = true → s.humidity.lt OPTIMAL_HUMIDITY_MIN = false) ∧
    (Scheduler.environmentalControl s a).isPumpActive = a.isPumpActive ∧
    (Scheduler.environmentalControl s a).isWateringActive = a.isWateringActive := by
  refine ⟨environmentalControl_filter_pump s a, ?_, ?_, (environmentalControl_frame s a).1,
    (environmentalControl_frame s a).2.1⟩
  · intro h hh
    rw [hh]
    simp [FloatVal.lt, OPTIMAL_HUMIDITY_MIN]
  · intro hn
    cases hs : s.humidity <;> simp_all [FloatVal.isnan, FloatVal.lt]

/-- C16 (defect): the low-humidity pulse has no cooldown.  From a fresh actuator
manager two successive `environmentalControl` calls at 18 degrees and 50 percent
humidity both issue the pump pulse; the function reads no clock and keeps no
time of the last pulse, so this is so whatever time lies between the calls,
200000 ms as well as 2000 ms.  `config.h` declares
`EMERGENCY_WATERING_COOLDOWN` and `scheduler.h` declares `cooldownTime`,
`lastAction` and `isCooldownComplete` for this; `scheduler.cpp` uses none of
them. -/
theorem low_humidity_pulse_fires_again :
    (ActuatorManager.new.callsSince (Scheduler.environmentalControl
        { SensorManager.new with temperature := FloatVal.finite 18, humidity := FloatVal.finite 50 }
        ActuatorManager.new)).filter ActuatorCall.isPumpCommand
      = [ActuatorCall.activatePumps true, ActuatorCall.activatePumps false] ∧
    ((Scheduler.environmentalControl
        { SensorManager.new with temperature := FloatVal.finite 18, humidity := FloatVal.finite 50 }
        ActuatorManager.new).callsSince
      (Scheduler.environmentalControl
        { SensorManager.new with temperature := FloatVal.finite 18, humidity := FloatVal.finite 50 }
        (Scheduler.environmentalControl
          { SensorManager.new with temperature := FloatVal.finite 18,
                                   humidity := FloatVal.finite 50 }
          ActuatorManager.new))).filter ActuatorCall.isPumpCommand
      = [ActuatorCall.activatePumps true, ActuatorCall.activatePumps false] := by
  decide

/-- Extent of the missing cooldown: in successive `environmentalControl` calls
that all see a humidity below `OPTIMAL_HUMIDITY_MIN`, started with neither
watering nor pump active, every call issues the pump pulse: as many
`activatePumps(true)` and `activatePumps(false)` commands as there are calls, and
pump and watering are inactive again afterwards. -/
theorem low_humidity_pulse_every_call (l : List SensorManager)
    (h : ∀ s ∈ l, s.humidity.lt OPTIMAL_HUMIDITY_MIN = true) : ∀ a : ActuatorManager,
    a.isWateringActive = false → a.isPumpActive = false →
    ((a.callsSince (environmentalControls a l)).filter ActuatorCall.isPumpCommand).count
        (ActuatorCall.activatePumps true) = l.length ∧
    ((a.callsSince (environmentalControls a l)).filter ActuatorCall.isPumpCommand).count
        (ActuatorCall.activatePumps false) = l.length ∧
    (environmentalControls a l).isWateringActive = false ∧
    (environmentalControls a l).isPumpActive = false := by
  induction l with
  | nil =>
      intro a hw hp
      simp [environmentalControls, ActuatorManager.callsSince, hw, hp]
  | cons s rest ih =>
      intro a hw hp
      have hs := h s (List.mem_cons_self _ _)
      obtain ⟨f1, f2, _⟩ := environmentalControl_frame s a
      simp only [ActuatorManager.isWateringActive, ActuatorManager.isPumpActive] at hw hp
      obtain ⟨i1, i2, i3, i4⟩ := ih (fun x hx => h x (List.mem_cons_of_mem _ hx))
        (Scheduler.environmentalControl s a)
        (by simp [ActuatorManager.isWateringActive, f2, hw])
        (by simp [ActuatorManager.isPumpActive, f1, hp])
      refine ⟨?_, ?_, by simpa [environmentalControls] using i3,
        by simpa [environmentalControls] using i4⟩
      · rw [environmentalControls_callsSince_cons, List.filter_append, List.count_append,
          environmentalControl_filter_pump, i1]
        simp [hs, hw, hp]
        omega
      · rw [environmentalControls_callsSince_cons, List.filter_append, List.count_append,
          environmentalControl_filter_pump, i2]
        simp [hs, hw, hp]
        omega

/-- Three calls at 50 percent humidity issue three pulses. -/
theorem low_humidity_pulse_every_call_witness :
    ((ActuatorManager.new.callsSince (environmentalControls ActuatorManager.new
      [{ SensorManager.new with humidity := FloatVal.finite 50 },
       { SensorManager.new with humidity := FloatVal.finite 50 },
       { SensorManager.new with humidity := FloatVal.finite 50 }])).filter
        ActuatorCall.isPumpCommand).count (ActuatorCall.activatePumps true) = 3 :=
  (low_humidity_pulse_every_call
    [{ SensorManager.new with humidity := FloatVal.finite 50 },
     { SensorManager.new with humidity := FloatVal.finite 50 },
     { SensorManager.new with humidity := FloatVal.finite 50 }]
    (by decide) ActuatorManager.new rfl rfl).1

/-! ## SmartFarm: the validity gate -/

/-- C13 (counterexample): with temperature 100 (outside (-40, 80)) and humidity
50 the reading is invalid, and `environmentalControl` called on it from a fresh
actuator manager switches the fans on and issues the pump pulse. -/
theorem environmentalControl_acts_on_invalid_reading :
    ({ SensorManager.new with temperature := FloatVal.finite 100,
                              humidity := FloatVal.finite 50 } : SensorManager).isValidReading
      = false ∧
    ActuatorManager.new.callsSince (Scheduler.environmentalControl
      { SensorManager.new with temperature := FloatVal.finite 100, humidity := FloatVal.finite 50 }
      ActuatorManager.new)
      = [ActuatorCall.activateFans true, ActuatorCall.activatePumps true,
         ActuatorCall.activatePumps false] := by
  decide

/-- C13 (amended): the validity check is made by the caller.  When the
temperature is not in (-40, 80) or the humidity is not in [0, 100], the control
block of `SmartFarm::run` does not call `environmentalControl` (nor `update` or
`timeBasedControl`): it makes no actuator call and leaves the farm unchanged. -/
theorem control_skips_invalid_reading (f : SmartFarm) (wateringMillis : Nat)
    (h : (FloatVal.lt (FloatVal.finite (-40)) f.sensors.temperature
            && FloatVal.lt f.sensors.temperature (FloatVal.finite 80)) = false ∨
         (FloatVal.le (FloatVal.finite 0) f.sensors.humidity
            && FloatVal.le f.sensors.humidity (FloatVal.finite 100)) = false) :
    f.sensors.isValidReading = false ∧
    f.control wateringMillis = f ∧
    f.actuators.callsSince (f.control wateringMillis).actuators = [] := by
  have hv : f.sensors.isValidReading = false := by
    rcases Bool.eq_false_or_eq_true f.sensors.isValidReading with hv | hv
    · obtain ⟨_, _, h1, h2, h3, h4⟩ := (isValidReading_iff f.sensors).1 hv
      rcases h with h | h <;> simp [h1, h2, h3, h4] at h
    · exact hv
  have hc : f.control wateringMillis = f := by simp [SmartFarm.control, hv]
  exact ⟨hv, hc, by rw [hc]; simp [ActuatorManager.callsSince]⟩

/-- Witness for C13 (amended): temperature 100 at noon of 2025-07-14. -/
theorem control_skips_invalid_reading_witness :
    ({ SmartFarm.new with
        sensors := { SensorManager.new with temperature := FloatVal.finite 100,
                                            humidity := FloatVal.finite 50 } } : SmartFarm).control 0
      = { SmartFarm.new with
          sensors := { SensorManager.new with temperature := FloatVal.finite 100,
                                              humidity := FloatVal.finite 50 } } :=
  (control_skips_invalid_reading
    { SmartFarm.new with
      sensors := { SensorManager.new with temperature := FloatVal.finite 100,
                                          humidity := FloatVal.finite 50 } } 0
    (Or.inl (by decide))).2.1

theorem isValidReading_readSensors_readRTC (s : SensorManager) (now : DateTime) (ms : Nat)
    (t h : FloatVal) (light : Int) :
    ((s.readRTC now).readSensors ms t h light).isValidReading
      = (s.readSensors ms t h light).isValidReading := by
  simp only [SensorManager.readSensors, SensorManager.readRTC, SensorManager.isValidReading]
  split_ifs <;> rfl

theorem checkWateringDuration_frame (a : ActuatorManager) (ms : Nat) :
    (a.checkWateringDuration ms).2.fanStatus = a.fanStatus ∧
    (a.checkWateringDuration ms).2.ledStatus = a.ledStatus := by
  simp only [ActuatorManager.checkWateringDuration, ActuatorManager.stopWatering,
    ActuatorManager.activatePumps]
  split_ifs <;> simp

/-- C14: when the reading that `SmartFarm::run` checks is invalid, the cycle
executes none of `update`, `timeBasedControl` and `environmentalControl`: the
scheduler (four done-flags and stored day) is unchanged, the only actuator effect
of the cycle is that of `checkWateringDuration`, and fan and LED state are the
same after the cycle as before it. -/
theorem run_invalid_reading (f : SmartFarm) (i : RunInput)
    (h : (f.sensors.readSensors i.sensorMillis i.newTemp i.newHumidity i.light).isValidReading
      = false) :
    (f.run i).scheduler = f.scheduler ∧
    (f.run i).actuators = (f.actuators.checkWateringDuration i.checkMillis).2 ∧
    (f.run i).actuators.isFanActive = f.actuators.isFanActive ∧
    (f.run i).actuators.isLEDActive = f.actuators.isLEDActive := by
  have h2 := isValidReading_readSensors_readRTC f.sensors i.rtcNow i.sensorMillis i.newTemp
    i.newHumidity i.light
  rw [h] at h2
  have key : (f.run i).scheduler = f.scheduler ∧
      (f.run i).actuators = (f.actuators.checkWateringDuration i.checkMillis).2 := by
    simp only [SmartFarm.run, SmartFarm.control]
    split_ifs <;> simp_all
  refine ⟨key.1, key.2, ?_, ?_⟩
  · rw [ActuatorManager.isFanActive, key.2, (checkWateringDuration_frame _ _).1]
    rfl
  · rw [ActuatorManager.isLEDActive, key.2, (checkWateringDuration_frame _ _).2]
    rfl

/-- Witness for C14: a cycle at `millis() = 5000` in which the DHT sensor reports
100 degrees. -/
theorem run_invalid_reading_witness :
    (SmartFarm.new.run
      { millis := 5000, rtcNow := DateTime.ofComponents Platform.esp32 2025 7 14 12 0 0,
        sensorMillis := 5000, newTemp := FloatVal.finite 100, newHumidity := FloatVal.finite 50,
        light := 500, wateringMillis := 5000, checkMillis := 5001 }).scheduler
      = SmartFarm.new.scheduler :=
  (run_invalid_reading SmartFarm.new
    { millis := 5000, rtcNow := DateTime.ofComponents Platform.esp32 2025 7 14 12 0 0,
      sensorMillis := 5000, newTemp := FloatVal.finite 100, newHumidity := FloatVal.finite 50,
      light := 500, wateringMillis := 5000, checkMillis := 5001 }
    (by decide)).1

/-! ## Emergency stop -/

/-- C19: after `emergencyStop()` none of pump, fan, LED and watering is active,
whatever the state before. -/
theorem emergencyStop_all_off (a : ActuatorManager) :
    a.emergencyStop.isPumpActive = false ∧ a.emergencyStop.isFanActive = false ∧
    a.emergencyStop.isLEDActive = false ∧ a.emergencyStop.isWateringActive = false := by
  simp [ActuatorManager.emergencyStop, ActuatorManager.activatePumps,
    ActuatorManager.activateFans, ActuatorManager.activateLED, ActuatorManager.isPumpActive,
    ActuatorManager.isFanActive, ActuatorManager.isLEDActive, ActuatorManager.isWateringActive]

/-- C18 (counterexample): after `emergencyStop()` a `timeBasedControl` call at
12:00 issues `activateLED(true)` and an `environmentalControl` call at 26 degrees
issues `activateFans(true)`: the stop leaves no latch behind. -/
theorem control_acts_after_emergencyStop :
    ActuatorCall.activateLED true ∈
      ActuatorManager.new.emergencyStop.callsSince
        (Scheduler.new.timeBasedControl (DateTime.ofComponents Platform.esp32 2025 7 14 12 0 0)
          ActuatorManager.new.emergencyStop 0).2 ∧
    ActuatorCall.activateFans true ∈
      ActuatorManager.new.emergencyStop.callsSince
        (Scheduler.environmentalControl
          { SensorManager.new with temperature := FloatVal.finite 26,
                                   humidity := FloatVal.finite 70 }
          ActuatorManager.new.emergencyStop) := by
  decide

theorem runLoop_not_pressed (pre : List (Bool × RunInput)) :
    ∀ (farm : SmartFarm) (tail : List (Bool × RunInput)), (∀ x ∈ pre, x.1 = false) →
      runLoop farm (pre ++ tail) = runLoop (runLoop farm pre) tail := by
  induction pre with
  | nil => intro farm tail _; rfl
  | cons x rest ih =>
      intro farm tail h
      obtain ⟨pressed, i⟩ := x
      have hp : pressed = false := h (pressed, i) (List.mem_cons_self _ _)
      subst hp
      simp only [List.cons_append, runLoop, loop]
      exact ih _ tail (fun y hy => h y (List.mem_cons_of_mem _ hy))

/-- C18 (amended): the emergency stop suppresses actuation by halting the main
loop.  Once a call of `loop()` finds `emergencyStopPressed` set, it executes
`SmartFarm::emergencyStop` and never returns, so whatever calls and readings
would follow, the farm stays as the stop left it: all actuators off, and the only
commands issued after the stop was detected are its own three off-commands. -/
theorem emergency_stop_halts_control (farm : SmartFarm) (pre rest : List (Bool × RunInput))
    (i : RunInput) (h : ∀ x ∈ pre, x.1 = false) :
    runLoop farm (pre ++ (true, i) :: rest) = (runLoop farm pre).emergencyStop ∧
    (runLoop farm (pre ++ (true, i) :: rest)).actuators.isPumpActive = false ∧
    (runLoop farm (pre ++ (true, i) :: rest)).actuators.isFanActive = false ∧
    (runLoop farm (pre ++ (true, i) :: rest)).actuators.isLEDActive = false ∧
    (runLoop farm (pre ++ (true, i) :: rest)).actuators.isWateringActive = false ∧
    (runLoop farm pre).actuators.callsSince (runLoop farm (pre ++ (true, i) :: rest)).actuators
      = [ActuatorCall.emergencyStop, ActuatorCall.activatePumps false,
         ActuatorCall.activateFans false, ActuatorCall.activateLED false] := by
  have e : runLoop farm (pre ++ (true, i) :: rest) = (runLoop farm pre).emergencyStop := by
    rw [runLoop_not_pressed pre farm _ h]
    simp [runLoop, loop]
  rw [e]
  refine ⟨rfl, ?_, ?_, ?_, ?_, ?_⟩ <;>
    simp [SmartFarm.emergencyStop, ActuatorManager.emergencyStop, ActuatorManager.activatePumps,
      ActuatorManager.activateFans, ActuatorManager.activateLED, ActuatorManager.isPumpActive,
      ActuatorManager.isFanActive, ActuatorManager.isLEDActive, ActuatorManager.isWateringActive,
      ActuatorManager.callsSince]

/-- Witness for C18 (amended): the stop is pressed before the first cycle and a
noon cycle at 26 degrees would follow. -/
theorem emergency_stop_halts_control_witness :
    runLoop SmartFarm.new ([] ++
      (true, { millis := 100, rtcNow := DateTime.ofComponents Platform.esp32 2025 7 14 12 0 0,
               sensorMillis := 100, newTemp := FloatVal.finite 26,
               newHumidity := FloatVal.finite 70, light := 100, wateringMillis := 100,
               checkMillis := 100 }) ::
      [(true, { millis := 5000, rtcNow := DateTime.ofComponents Platform.esp32 2025 7 14 12 0 5,
                sensorMillis := 5000, newTemp := FloatVal.finite 26,
                newHumidity := FloatVal.finite 70, light := 100, wateringMillis := 5000,
                checkMillis := 5000 })])
      = (runLoop SmartFarm.new []).emergencyStop :=
  (emergency_stop_halts_control SmartFarm.new []
    [(true, { millis := 5000, rtcNow := DateTime.ofComponents Platform.esp32 2025 7 14 12 0 5,
              sensorMillis := 5000, newTemp := FloatVal.finite 26,
              newHumidity := FloatVal.finite 70, light := 100, wateringMillis := 5000,
              checkMillis := 5000 })]
    { millis := 100, rtcNow := DateTime.ofComponents Platform.esp32 2025 7 14 12 0 0,
      sensorMillis := 100, newTemp := FloatVal.finite 26, newHumidity := FloatVal.finite 70,
      light := 100, wateringMillis := 100, checkMillis := 100 }
    (by simp)).1

/-! ## DateTime construction -/

/-- C20 (counterexample): constructing 2025-02-30 yields a `DateTime` holding
month 2 and day 30, although February 2025 has 28 days; nothing is rejected. -/
theorem ofComponents_accepts_feb_30 :
    (DateTime.ofComponents Platform.esp32 2025 2 30 0 0 0).month = 2 ∧
    (DateTime.ofComponents Platform.esp32 2025 2 30 0 0 0).day = 30 ∧
    getDaysInMonth 2 2025 = some 28 ∧
    (DateTime.ofComponents Platform.esp32 2025 13 1 24 60 60).month = 13 ∧
    (DateTime.ofComponents Platform.esp32 2025 13 1 24 60 60).hour = 24 ∧
    (DateTime.ofComponents Platform.esp32 2025 13 1 24 60 60).minute = 60 ∧
    (DateTime.ofComponents Platform.esp32 2025 13 1 24 60 60).second = 60 := by
  decide

/-- C20 (amended): construction from components performs no validation and
cannot fail: for every year, month, day, hour, minute and second, valid date or
not, it yields a `DateTime` holding exactly those fields, together with the
weekday computed from them. -/
theorem ofComponents_stores_fields (p : Platform) (y m d h mi s : Nat) :
    (DateTime.ofComponents p y m d h mi s).year = y ∧
    (DateTime.ofComponents p y m d h mi s).month = m ∧
    (DateTime.ofComponents p y m d h mi s).day = d ∧
    (DateTime.ofComponents p y m d h mi s).hour = h ∧
    (DateTime.ofComponents p y m d h mi s).minute = mi ∧
    (DateTime.ofComponents p y m d h mi s).second = s ∧
    (DateTime.ofComponents p y m d h mi s).dayOfTheWeek = calculateDayOfWeek p y m d :=
  ⟨rfl, rfl, rfl, rfl, rfl, rfl, rfl⟩

/-! ## Formatting -/

theorem decimal_one_digit (n : Nat) (h : n < 10) : decimal n = [Nat.digitChar n] := by
  have e1 : n / 10 = 0 := by omega
  have e2 : n % 10 = n := by omega
  simp [decimal, Nat.toDigits, Nat.toDigitsCore, e1, e2]

theorem decimal_two_digits (n : Nat) (h1 : 10 ≤ n) (h : n < 100) : decimal n = twoDigits n := by
  obtain ⟨k, rfl⟩ : ∃ k, n = k + 1 := ⟨n - 1, by omega⟩
  have e1 : ¬ (k + 1) / 10 = 0 := by omega
  have e2 : (k + 1) / 10 / 10 = 0 := by omega
  have e3 : (k + 1) / 10 % 10 = (k + 1) / 10 := by omega
  simp [decimal, twoDigits, Nat.toDigits, Nat.toDigitsCore, e1, e2, e3]

theorem decimal_four_digits (n : Nat) (h1 : 1000 ≤ n) (h : n < 10000) :
    decimal n = [Nat.digitChar (n / 1000), Nat.digitChar (n / 100 % 10),
      Nat.digitChar (n / 10 % 10), Nat.digitChar (n % 10)] := by
  obtain ⟨k, rfl⟩ : ∃ k, n = k + 3 := ⟨n - 3, by omega⟩
  have e1 : ¬ (k + 3) / 10 = 0 := by omega
  have e2 : ¬ (k + 3) / 10 / 10 = 0 := by omega
  have e3 : ¬ (k + 3) / 10 / 10 / 10 = 0 := by omega
  have e4 : (k + 3) / 10 / 10 / 10 / 10 = 0 := by omega
  have e5 : (k + 3) / 10 / 10 / 10 % 10 = (k + 3) / 1000 := by omega
  have e6 : (k + 3) / 10 / 10 % 10 = (k + 3) / 100 % 10 := by omega
  simp [decimal, Nat.toDigits, Nat.toDigitsCore, e1, e2, e3, e4, e5, e6]

/-- The zero-padded text that the formatting methods build for a number below
100. -/
theorem padded_eq_twoDigits (n : Nat) (h : n < 100) :
    (if n < 10 then ['0'] ++ decimal n else decimal n) = twoDigits n := by
  by_cases h10 : n < 10
  · have e1 : n / 10 = 0 := by omega
    have e2 : n % 10 = n := by omega
    rw [if_pos h10, decimal_one_digit n h10]
    simp only [twoDigits, e1, e2]
    rfl
  · rw [if_neg h10, decimal_two_digits n (by omega) h]

theorem digitChar_not_token (k : Nat) (h : k < 10) :
    Nat.digitChar k ≠ 'H' ∧ Nat.digitChar k ≠ 'm' ∧ Nat.digitChar k ≠ 's' := by
  interval_cases k <;> decide

theorem replace_tokens (a1 a2 a3 a4 a5 a6 : Char) (h1 m1 s1 : List Char)
    (n1 : a1 ≠ 'H' ∧ a1 ≠ 'm' ∧ a1 ≠ 's') (n2 : a2 ≠ 'H' ∧ a2 ≠ 'm' ∧ a2 ≠ 's')
    (n3 : a3 ≠ 'H' ∧ a3 ≠ 'm' ∧ a3 ≠ 's') (n4 : a4 ≠ 'H' ∧ a4 ≠ 'm' ∧ a4 ≠ 's')
    (n5 : a5 ≠ 'H' ∧ a5 ≠ 'm' ∧ a5 ≠ 's') (n6 : a6 ≠ 'H' ∧ a6 ≠ 'm' ∧ a6 ≠ 's') :
    replaceAll ['s'] s1 (replaceAll ['s', 's'] [a5, a6] (replaceAll ['m'] m1
      (replaceAll ['m', 'm'] [a3, a4] (replaceAll ['H'] h1
        (replaceAll ['H', 'H'] [a1, a2] ['H', 'H', ':', 'm', 'm', ':', 's', 's'])))))
      = [a1, a2, ':', a3, a4, ':', a5, a6] := by
  obtain ⟨x1, y1, z1⟩ := n1
  obtain ⟨x2, y2, z2⟩ := n2
  obtain ⟨x3, y3, z3⟩ := n3
  obtain ⟨x4, y4, z4⟩ := n4
  obtain ⟨x5, y5, z5⟩ := n5
  obtain ⟨x6, y6, z6⟩ := n6
  simp [replaceAll, replaceGo, beginsWith, Ne.symm x1, Ne.symm x2, Ne.symm x3, Ne.symm x4,
    Ne.symm x5, Ne.symm x6, Ne.symm y1, Ne.symm y2, Ne.symm y3, Ne.symm y4, Ne.symm y5,
    Ne.symm y6, Ne.symm z1, Ne.symm z2, Ne.symm z3, Ne.symm z4, Ne.symm z5, Ne.symm z6]

/-- C25: for hour < 24, minute < 60 and second < 60, `formatTime("HH:mm:ss")` is
the 8-character text of the two-digit zero-padded hour, minute and second
separated by colons. -/
theorem formatTime_HH_mm_ss (dt : DateTime) (hh : dt.hour < 24) (hm : dt.minute < 60)
    (hs : dt.second < 60) :
    dt.formatTime ['H', 'H', ':', 'm', 'm', ':', 's', 's']
      = twoDigits dt.hour ++ [':'] ++ twoDigits dt.minute ++ [':'] ++ twoDigits dt.second ∧
    (dt.formatTime ['H', 'H', ':', 'm', 'm', ':', 's', 's']).length = 8 := by
  have key : dt.formatTime ['H', 'H', ':', 'm', 'm', ':', 's', 's']
      = twoDigits dt.hour ++ [':'] ++ twoDigits dt.minute ++ [':'] ++ twoDigits dt.second := by
    unfold DateTime.formatTime
    simp only [padded_eq_twoDigits dt.hour (by omega), padded_eq_twoDigits dt.minute (by omega),
      padded_eq_twoDigits dt.second (by omega), twoDigits]
    rw [replace_tokens _ _ _ _ _ _ _ _ _
      (digitChar_not_token _ (by omega)) (digitChar_not_token _ (by omega))
      (digitChar_not_token _ (by omega)) (digitChar_not_token _ (by omega))
      (digitChar_not_token _ (by omega)) (digitChar_not_token _ (by omega))]
    rfl
  exact ⟨key, by rw [key]; rfl⟩

/-- Witness for C25: 08:05:30. -/
theorem formatTime_HH_mm_ss_witness :
    (DateTime.ofComponents Platform.esp32 2025 7 14 8 5 30).formatTime
        ['H', 'H', ':', 'm', 'm', ':', 's', 's']
      = twoDigits 8 ++ [':'] ++ twoDigits 5 ++ [':'] ++ twoDigits 30 :=
  (formatTime_HH_mm_ss (DateTime.ofComponents Platform.esp32 2025 7 14 8 5 30) (by decide)
    (by decide) (by decide)).1

/-- C26: for hour, minute and second below 100, `SensorManager::formatTime`
returns 8 characters with a colon at indices 2 and 5; for a year from 1000 to
9999 and month and day below 100, `SensorManager::formatDate` returns 10
characters with a hyphen at indices 4 and 7. -/
theorem sensor_format_shape (dt : DateTime) :
    (dt.hour < 100 → dt.minute < 100 → dt.second < 100 →
      SensorManager.formatTime dt
        = twoDigits dt.hour ++ [':'] ++ twoDigits dt.minute ++ [':'] ++ twoDigits dt.second ∧
      (SensorManager.formatTime dt).length = 8 ∧
      (SensorManager.formatTime dt)[2]? = some ':' ∧
      (SensorManager.formatTime dt)[5]? = some ':') ∧
    (1000 ≤ dt.year → dt.year ≤ 9999 → dt.month < 100 → dt.day < 100 →
      (SensorManager.formatDate dt).length = 10 ∧
      (SensorManager.formatDate dt)[4]? = some '-' ∧
      (SensorManager.formatDate dt)[7]? = some '-') := by
  constructor
  · intro hh hm hs
    have e1 := padded_eq_twoDigits dt.hour hh
    have e2 := padded_eq_twoDigits dt.minute hm
    have e3 := padded_eq_twoDigits dt.second hs
    have key : SensorManager.formatTime dt
        = twoDigits dt.hour ++ [':'] ++ twoDigits dt.minute ++ [':'] ++ twoDigits dt.second := by
      rw [← e1, ← e2, ← e3]
      unfold SensorManager.formatTime
      by_cases c1 : dt.hour < 10 <;> by_cases c2 : dt.minute < 10 <;>
        by_cases c3 : dt.second < 10 <;> simp [c1, c2, c3]
    rw [key]
    simp [twoDigits]
  · intro hy1 hy2 hm hd
    have e0 := decimal_four_digits dt.year hy1 (by omega)
    have e1 := padded_eq_twoDigits dt.month hm
    have e2 := padded_eq_twoDigits dt.day hd
    have key : SensorManager.formatDate dt
        = decimal dt.year ++ ['-'] ++ twoDigits dt.month ++ ['-'] ++ twoDigits dt.day := by
      rw [← e1, ← e2]
      unfold SensorManager.formatDate
      by_cases c1 : dt.month < 10 <;> by_cases c2 : dt.day < 10 <;> simp [c1, c2]
    rw [key, e0]
    simp [twoDigits]

/-- Witness for C26: 2025-07-04 08:05:30. -/
theorem sensor_format_shape_witness :
    (SensorManager.formatTime (DateTime.ofComponents Platform.esp32 2025 7 4 8 5 30)).length = 8 ∧
    (SensorManager.formatDate (DateTime.ofComponents Platform.esp32 2025 7 4 8 5 30)).length = 10 :=
  ⟨((sensor_format_shape (DateTime.ofComponents Platform.esp32 2025 7 4 8 5 30)).1
      (by decide) (by decide) (by decide)).2.1,
   ((sensor_format_shape (DateTime.ofComponents Platform.esp32 2025 7 4 8 5 30)).2
      (by decide) (by decide) (by decide) (by decide)).1⟩

/-! ## RTC register encoding -/

theorem bcd_roundtrip (v : Nat) (h : v < 100) :
    bcd2bin (bin2bcd v) = v ∧ bin2bcd v / 16 = v / 10 ∧ bin2bcd v % 16 = v % 10 := by
  have e1 : (v + 6 * (v / 10)) % 256 = v + 6 * (v / 10) := by omega
  have e2 : (v + 6 * (v / 10)) / 16 = v / 10 := by omega
  have e3 : v + 6 * (v / 10) - 6 * (v / 10) = v := by omega
  have e4 : v % 256 = v := by omega
  unfold bcd2bin bin2bcd
  rw [e1, e2, e3, e4]
  omega

/-- C30: for every valid `DateTime` with 2000 <= year <= 2099, the seven bytes
that `adjust` writes, read back by `now()`, give a `DateTime` with the same
year, month, day, hour, minute and second; `bcd2bin(bin2bcd(v)) = v` for every
`v` below 100, and `bin2bcd(v)` has the tens digit of `v` in its high nibble and
the ones digit in its low nibble. -/
theorem rtc_register_roundtrip (p : Platform) (dt : DateTime) (hv : dt.Valid)
    (hy1 : 2000 ≤ dt.year) (hy2 : dt.year ≤ 2099) :
    (RTC_DS1307.adjustBuffer dt).length = 7 ∧
    (RTC_DS1307.now p true (RTC_DS1307.adjustBuffer dt)).year = dt.year ∧
    (RTC_DS1307.now p true (RTC_DS1307.adjustBuffer dt)).month = dt.month ∧
    (RTC_DS1307.now p true (RTC_DS1307.adjustBuffer dt)).day = dt.day ∧
    (RTC_DS1307.now p true (RTC_DS1307.adjustBuffer dt)).hour = dt.hour ∧
    (RTC_DS1307.now p true (RTC_DS1307.adjustBuffer dt)).minute = dt.minute ∧
    (RTC_DS1307.now p true (RTC_DS1307.adjustBuffer dt)).second = dt.second ∧
    (RTC_DS1307.now p true (RTC_DS1307.adjustBuffer dt)).eq dt = true ∧
    (∀ v : Nat, v < 100 →
      bcd2bin (bin2bcd v) = v ∧ bin2bcd v / 16 = v / 10 ∧ bin2bcd v % 16 = v % 10) := by
  obtain ⟨hm1, hm2, hd1, hd2, hh, hmi, hs⟩ := hv
  have hlen := (getDaysInMonth_eq_monthLen dt.month dt.year hm1 hm2).2.2
  have es : bcd2bin (bin2bcd dt.second % 128) = dt.second := by
    have e0 : bin2bcd dt.second % 128 = bin2bcd dt.second := by
      have q : dt.second / 10 ≤ 5 := by omega
      have e1 : (dt.second + 6 * (dt.second / 10)) % 256 = dt.second + 6 * (dt.second / 10) := by
        omega
      unfold bin2bcd
      rw [e1]
      omega
    rw [e0, (bcd_roundtrip dt.second (by omega)).1]
  have emi := (bcd_roundtrip dt.minute (by omega)).1
  have eh := (bcd_roundtrip dt.hour (by omega)).1
  have ed := (bcd_roundtrip dt.day (by omega)).1
  have em := (bcd_roundtrip dt.month (by omega)).1
  have ey : (bcd2bin (bin2bcd (dt.year % 100)) + 2000) % 65536 = dt.year := by
    rw [(bcd_roundtrip (dt.year % 100) (by omega)).1]
    omega
  have key : RTC_DS1307.now p true (RTC_DS1307.adjustBuffer dt)
      = DateTime.ofComponents p dt.year dt.month dt.day dt.hour dt.minute dt.second := by
    simp [RTC_DS1307.now, RTC_DS1307.adjustBuffer, Nat.mod_mod, es, emi, eh, ed, em, ey]
  rw [key]
  refine ⟨rfl, rfl, rfl, rfl, rfl, rfl, rfl, ?_, bcd_roundtrip⟩
  simp [DateTime.eq, DateTime.ofComponents]

/-- Witness for C30: 2025-07-14 18:45:59. -/
theorem rtc_register_roundtrip_witness :
    (RTC_DS1307.now Platform.avrUno true
      (RTC_DS1307.adjustBuffer (DateTime.ofComponents Platform.avrUno 2025 7 14 18 45 59))).eq
      (DateTime.ofComponents Platform.avrUno 2025 7 14 18 45 59) = true :=
  (rtc_register_roundtrip Platform.avrUno (DateTime.ofComponents Platform.avrUno 2025 7 14 18 45 59)
    (by decide) (by decide) (by decide)).2.2.2.2.2.2.2.1

/-! ## Actuator commands -/

/-- C22 (counterexample): `startWatering()` at 0 ms, `startWatering()` again at
40000 ms and `checkWateringDuration()` at 40000 ms, right after the second call:
the check returns true and turns watering and the pump off, because the second
`startWatering()` found watering active and kept the start time 0. -/
theorem checkWateringDuration_true_after_startWatering :
    (((ActuatorManager.new.startWatering 0).startWatering 40000).checkWateringDuration
      40000).1 = true ∧
    (((ActuatorManager.new.startWatering 0).startWatering 40000).checkWateringDuration
      40000).2.isWateringActive = false ∧
    (((ActuatorManager.new.startWatering 0).startWatering 40000).checkWateringDuration
      40000).2.isPumpActive = false := by
  decide

/-- C22 (amended): `checkWateringDuration()` returns true exactly when watering is
active and `millis() - wateringStartTime`, taken modulo 2^32, is at least
`WATERING_DURATION` = 30000; it then turns watering and the pump off; when it
returns false, watering and pump state are unchanged.  The difference modulo 2^32
is the elapsed time also across a wrap of `millis()`.  A check less than
30000 ms after a `startWatering()` that found watering inactive returns false
with watering and pump on; a `startWatering()` that found watering active keeps
the earlier start time, and the check after it returns what it would have
returned without that call. -/
theorem checkWateringDuration_spec (a : ActuatorManager) (millis : Nat) :
    ((a.checkWateringDuration millis).1 = true ↔
      a.isWateringActive = true ∧
        (millis + 2 ^ 32 - a.wateringStartTime) % 2 ^ 32 ≥ 30000) ∧
    ((a.checkWateringDuration millis).1 = true →
      (a.checkWateringDuration millis).2.isWateringActive = false ∧
      (a.checkWateringDuration millis).2.isPumpActive = false) ∧
    ((a.checkWateringDuration millis).1 = false →
      (a.checkWateringDuration millis).2.isWateringActive = a.isWateringActive ∧
      (a.checkWateringDuration millis).2.isPumpActive = a.isPumpActive) ∧
    WATERING_DURATION = 30000 ∧
    (∀ elapsed : Nat, elapsed < 2 ^ 32 → a.wateringStartTime < 2 ^ 32 →
      ((a.wateringStartTime + elapsed) % 2 ^ 32 + 2 ^ 32 - a.wateringStartTime) % 2 ^ 32
        = elapsed) ∧
    (∀ start : Nat, a.isWateringActive = false → start < 2 ^ 32 →
      (millis + 2 ^ 32 - start) % 2 ^ 32 < 30000 →
      ((a.startWatering start).checkWateringDuration millis).1 = false ∧
      ((a.startWatering start).checkWateringDuration millis).2.isWateringActive = true ∧
      ((a.startWatering start).checkWateringDuration millis).2.isPumpActive = true) ∧
    (∀ start : Nat, a.isWateringActive = true →
      (a.startWatering start).wateringStartTime = a.wateringStartTime ∧
      ((a.startWatering start).checkWateringDuration millis).1
        = (a.checkWateringDuration millis).1) := by
  rcases a with ⟨pump, fan, led, wat, st, calls⟩
  refine ⟨?_, ?_, ?_, rfl, ?_, ?_, ?_⟩
  · simp only [ActuatorManager.checkWateringDuration, ActuatorManager.isWateringActive,
      WATERING_DURATION]
    split_ifs with h <;> simp_all
  · simp only [ActuatorManager.checkWateringDuration, ActuatorManager.isWateringActive,
      ActuatorManager.isPumpActive, ActuatorManager.stopWatering, ActuatorManager.activatePumps,
      WATERING_DURATION]
    split_ifs with h <;> simp_all
  · simp only [ActuatorManager.checkWateringDuration, ActuatorManager.isWateringActive,
      ActuatorManager.isPumpActive, ActuatorManager.stopWatering, ActuatorManager.activatePumps,
      WATERING_DURATION]
    split_ifs with h <;> simp_all
  · intro elapsed h1 h2
    simp only at h2
    by_cases hw : st + elapsed < 2 ^ 32
    · have e : (st + elapsed) % 2 ^ 32 = st + elapsed := Nat.mod_eq_of_lt hw
      simp only [e]
      omega
    · have e : (st + elapsed) % 2 ^ 32 = st + elapsed - 2 ^ 32 := by omega
      simp only [e]
      omega
  · intro start hw hs hlt
    simp only [ActuatorManager.isWateringActive] at hw
    subst hw
    have hn : ¬ 30000 ≤ (millis + 4294967296 - start) % 4294967296 := by omega
    simp [ActuatorManager.checkWateringDuration, ActuatorManager.startWatering,
      ActuatorManager.activatePumps, ActuatorManager.isWateringActive,
      ActuatorManager.isPumpActive, WATERING_DURATION, hn]
  · intro start hw
    simp only [ActuatorManager.isWateringActive] at hw
    subst hw
    constructor
    · simp [ActuatorManager.startWatering]
    · simp only [ActuatorManager.checkWateringDuration, ActuatorManager.startWatering]
      split_ifs <;> simp_all

/-- Witness for C22 (amended): a watering started at 1000 ms, checked at
20000 ms. -/
theorem checkWateringDuration_spec_witness :
    ((ActuatorManager.new.startWatering 1000).checkWateringDuration 20000).1 = false ∧
    ((ActuatorManager.new.startWatering 1000).checkWateringDuration 20000).2.isWateringActive
      = true ∧
    ((ActuatorManager.new.startWatering 1000).checkWateringDuration 20000).2.isPumpActive
      = true :=
  (checkWateringDuration_spec ActuatorManager.new 20000).2.2.2.2.2.1 1000 (by decide)
    (by decide) (by decide)

/-- C23 (counterexample): `startWatering()`, then `activatePumps(false)`, then
`startWatering()` again leaves watering active with the pump off: the second
`startWatering()` does nothing because watering is already active. -/
theorem startWatering_leaves_pump_off :
    (((ActuatorManager.new.startWatering 0).activatePumps false).startWatering 1000).isWateringActive
      = true ∧
    (((ActuatorManager.new.startWatering 0).activatePumps false).startWatering 1000).isPumpActive
      = false := by
  decide

/-- C23 (amended): for every actuator state in which watering is not already
active with the pump off (so for every state with `isPumpActive()` equal to
`isWateringActive()`), after `startWatering()` both `isWateringActive()` and
`isPumpActive()` are true; when watering is already active the call changes no
member. -/
theorem startWatering_both_active (a : ActuatorManager) (millis : Nat)
    (h : a.isWateringActive = true → a.isPumpActive = true) :
    (a.startWatering millis).isWateringActive = true ∧
    (a.startWatering millis).isPumpActive = true ∧
    (a.isWateringActive = true → (a.startWatering millis).sameState a) := by
  rcases a with ⟨pump, fan, led, wat, st, calls⟩
  simp only [ActuatorManager.isWateringActive, ActuatorManager.isPumpActive] at h
  cases wat <;>
    simp_all [ActuatorManager.startWatering, ActuatorManager.activatePumps,
      ActuatorManager.isWateringActive, ActuatorManager.isPumpActive,
      ActuatorManager.sameState]

/-- Witness for C23 (amended): a fresh actuator manager. -/
theorem startWatering_both_active_witness :
    (ActuatorManager.new.startWatering 0).isWateringActive = true ∧
    (ActuatorManager.new.startWatering 0).isPumpActive = true :=
  ⟨(startWatering_both_active ActuatorManager.new 0 (by decide)).1,
   (startWatering_both_active ActuatorManager.new 0 (by decide)).2.1⟩

/-- C24: `activatePumps(b)`, `activateFans(b)` and `activateLED(b)` each set
their own status to `b`, leave the other two statuses and the watering flag
unchanged, and applied twice give the same state as applied once;
`moveLinearActuator()` leaves pump, fan, LED and watering state unchanged. -/
theorem basic_commands (a : ActuatorManager) (b : Bool) :
    ((a.activatePumps b).isPumpActive = b ∧
      (a.activatePumps b).isFanActive = a.isFanActive ∧
      (a.activatePumps b).isLEDActive = a.isLEDActive ∧
      (a.activatePumps b).isWateringActive = a.isWateringActive ∧
      ((a.activatePumps b).activatePumps b).sameState (a.activatePumps b)) ∧
    ((a.activateFans b).isFanActive = b ∧
      (a.activateFans b).isPumpActive = a.isPumpActive ∧
      (a.activateFans b).isLEDActive = a.isLEDActive ∧
      (a.activateFans b).isWateringActive = a.isWateringActive ∧
      ((a.activateFans b).activateFans b).sameState (a.activateFans b)) ∧
    ((a.activateLED b).isLEDActive = b ∧
      (a.activateLED b).isPumpActive = a.isPumpActive ∧
      (a.activateLED b).isFanActive = a.isFanActive ∧
      (a.activateLED b).isWateringActive = a.isWateringActive ∧
      ((a.activateLED b).activateLED b).sameState (a.activateLED b)) ∧
    a.moveLinearActuator.sameState a := by
  simp [ActuatorManager.activatePumps, ActuatorManager.activateFans, ActuatorManager.activateLED,
    ActuatorManager.moveLinearActuator, ActuatorManager.isPumpActive,
    ActuatorManager.isFanActive, ActuatorManager.isLEDActive, ActuatorManager.isWateringActive,
    ActuatorManager.sameState]

/-! ## One control cycle -/

theorem lightControl_settled (s : SensorManager) (a : ActuatorManager)
    (h : a.ledStatus = Scheduler.isTimeForLED s.currentTime) :
    Scheduler.lightControl s a = a := by
  rcases a with ⟨pump, fan, led, wat, st, calls⟩
  simp only at h
  subst h
  simp only [Scheduler.lightControl, SensorManager.getLightLevel, SensorManager.getCurrentTime,
    ActuatorManager.isLEDActive]
  rcases Bool.eq_false_or_eq_true (Scheduler.isTimeForLED s.currentTime) with h1 | h1 <;>
    simp [h1]

theorem environmentalControl_ledStatus_settled (s : SensorManager) (a : ActuatorManager)
    (h : a.ledStatus = Scheduler.isTimeForLED s.currentTime) :
    (Scheduler.environmentalControl s a).ledStatus = a.ledStatus := by
  have h2 : (Scheduler.humidityWatering s (Scheduler.fanControl s a)).ledStatus
      = Scheduler.isTimeForLED s.currentTime := by
    rw [humidityWatering_eq, ← h]
    exact (fanControl_frame s a).2.1
  unfold Scheduler.environmentalControl
  rw [lightControl_settled s _ h2, h2, h]

/-- C28: in a control cycle, `timeBasedControl(t, actuators)` followed by
`environmentalControl` with the sensors' current time equal to `t`, the LED state
after the cycle is `isTimeForLED(t)` whatever the light level, the same for any
two light levels, and `environmentalControl` issues no LED command. -/
theorem cycle_led_ignores_light (sch : Scheduler) (t : DateTime) (a : ActuatorManager)
    (millis : Nat) (s : SensorManager) (h : s.getCurrentTime = t) :
    (Scheduler.environmentalControl s (sch.timeBasedControl t a millis).2).isLEDActive
      = Scheduler.isTimeForLED t ∧
    (∀ light : Int,
      (Scheduler.environmentalControl { s with lightLevel := light }
          (sch.timeBasedControl t a millis).2).isLEDActive
        = (Scheduler.environmentalControl s (sch.timeBasedControl t a millis).2).isLEDActive) ∧
    (∀ (light : Int) (b : Bool), ActuatorCall.activateLED b ∉
      (sch.timeBasedControl t a millis).2.callsSince
        (Scheduler.environmentalControl { s with lightLevel := light }
          (sch.timeBasedControl t a millis).2)) := by
  simp only [SensorManager.getCurrentTime] at h
  have hled := timeBasedControl_ledStatus sch t a millis
  have settled : ∀ light : Int,
      (Scheduler.environmentalControl { s with lightLevel := light }
        (sch.timeBasedControl t a millis).2).ledStatus
        = (sch.timeBasedControl t a millis).2.ledStatus := by
    intro light
    apply environmentalControl_ledStatus_settled
    rw [hled, h]
  have e0 := settled s.lightLevel
  refine ⟨?_, ?_, ?_⟩
  · rw [ActuatorManager.isLEDActive]
    exact e0.trans hled
  · intro light
    rw [ActuatorManager.isLEDActive, ActuatorManager.isLEDActive, settled light]
    exact e0.symm
  · intro light b
    rw [(environmentalControl_callsSince _ _).2, settled light]
    simp only [if_true, List.append_nil, List.mem_append, not_or]
    constructor
    · split_ifs <;> simp
    · split_ifs <;> simp

/-- Witness for C28: noon of 2025-07-14 with a dark sensor reading. -/
theorem cycle_led_ignores_light_witness :
    (Scheduler.environmentalControl
      { SensorManager.new with
          currentTime := DateTime.ofComponents Platform.esp32 2025 7 14 12 0 0, lightLevel := 10 }
      (Scheduler.new.timeBasedControl (DateTime.ofComponents Platform.esp32 2025 7 14 12 0 0)
        ActuatorManager.new 0).2).isLEDActive
      = Scheduler.isTimeForLED (DateTime.ofComponents Platform.esp32 2025 7 14 12 0 0) :=
  (cycle_led_ignores_light Scheduler.new (DateTime.ofComponents Platform.esp32 2025 7 14 12 0 0)
    ActuatorManager.new 0
    { SensorManager.new with
        currentTime := DateTime.ofComponents Platform.esp32 2025 7 14 12 0 0, lightLevel := 10 }
    rfl).1

/-! ## Reachable actuator states -/

theorem timeBasedControl_pump_watering (sch : Scheduler) (t : DateTime) (a : ActuatorManager)
    (millis : Nat) (h : a.pumpStatus = a.wateringActive) :
    (sch.timeBasedControl t a millis).2.pumpStatus
      = (sch.timeBasedControl t a millis).2.wateringActive := by
  rcases a with ⟨pump, fan, led, wat, st, calls⟩
  simp only at h
  subst h
  simp only [Scheduler.timeBasedControl, ActuatorManager.isLEDActive]
  rcases Bool.eq_false_or_eq_true (Scheduler.isTimeForLED t) with h1 | h1 <;>
    rcases Bool.eq_false_or_eq_true (sch.isTimeToWater t).1 with h2 | h2 <;>
    rcases Bool.eq_false_or_eq_true ((sch.isTimeToWater t).2.isTimeToMovePlant t).1
      with h3 | h3 <;>
    cases led <;> cases pump <;>
    simp [h1, h2, h3, ActuatorManager.activateLED, ActuatorManager.startWatering,
      ActuatorManager.activatePumps, ActuatorManager.moveLinearActuator]

theorem checkWateringDuration_pump_watering (a : ActuatorManager) (millis : Nat)
    (h : a.pumpStatus = a.wateringActive) :
    (a.checkWateringDuration millis).2.pumpStatus
      = (a.checkWateringDuration millis).2.wateringActive := by
  rcases a with ⟨pump, fan, led, wat, st, calls⟩
  simp only at h
  subst h
  simp only [ActuatorManager.checkWateringDuration, ActuatorManager.stopWatering,
    ActuatorManager.activatePumps]
  split_ifs <;> simp_all

theorem apply_pump_watering (op : ControlOp) (sa : Scheduler × ActuatorManager)
    (h : sa.2.pumpStatus = sa.2.wateringActive) :
    (ControlOp.apply sa op).2.pumpStatus = (ControlOp.apply sa op).2.wateringActive := by
  cases op with
  | timeBasedControl t millis => exact timeBasedControl_pump_watering sa.1 t sa.2 millis h
  | environmentalControl sensors =>
      simp only [ControlOp.apply]
      rw [(environmentalControl_frame sensors sa.2).1, (environmentalControl_frame sensors sa.2).2.1]
      exact h
  | checkWateringDuration millis => exact checkWateringDuration_pump_watering sa.2 millis h
  | emergencyStop =>
      simp [ControlOp.apply, ActuatorManager.emergencyStop, ActuatorManager.activatePumps,
        ActuatorManager.activateFans, ActuatorManager.activateLED]

theorem applyOps_pump_watering (ops : List ControlOp) : ∀ sa : Scheduler × ActuatorManager,
    sa.2.pumpStatus = sa.2.wateringActive →
    (applyOps sa ops).2.pumpStatus = (applyOps sa ops).2.wateringActive := by
  induction ops with
  | nil => intro sa h; exact h
  | cons op rest ih =>
      intro sa h
      simp only [applyOps, List.foldl_cons]
      exact ih (ControlOp.apply sa op) (apply_pump_watering op sa h)

/-- C29: from a freshly constructed `ActuatorManager` and any scheduler, after
every operation of any sequence of `timeBasedControl`, `environmentalControl`,
`checkWateringDuration` and `emergencyStop`, `isPumpActive()` equals
`isWateringActive()`; and `environmentalControl` returns with the pump and
watering flags as it found them, from every state. -/
theorem control_loop_pump_eq_watering (sch : Scheduler) (ops : List ControlOp) :
    (∀ n : Nat,
      (applyOps (sch, ActuatorManager.new) (ops.take n)).2.isPumpActive
        = (applyOps (sch, ActuatorManager.new) (ops.take n)).2.isWateringActive) ∧
    (applyOps (sch, ActuatorManager.new) ops).2.isPumpActive
      = (applyOps (sch, ActuatorManager.new) ops).2.isWateringActive ∧
    (∀ (sensors : SensorManager) (a : ActuatorManager),
      (Scheduler.environmentalControl sensors a).isPumpActive = a.isPumpActive ∧
      (Scheduler.environmentalControl sensors a).isWateringActive = a.isWateringActive) := by
  refine ⟨fun n => ?_, ?_, fun sensors a => ?_⟩
  · exact applyOps_pump_watering (ops.take n) (sch, ActuatorManager.new) rfl
  · exact applyOps_pump_watering ops (sch, ActuatorManager.new) rfl
  · exact ⟨(environmentalControl_frame sensors a).1, (environmentalControl_frame sensors a).2.1⟩

/-! ## Validity of the epoch constructor -/

set_option maxRecDepth 100000 in
theorem sumYears_1970_137 : sumYears 1970 137 = 50038 := by decide

theorem year_count_le (n days : Nat) (h : sumYears 1970 n ≤ days) (hd : days ≤ 49710) :
    n ≤ 136 := by
  by_contra hn
  have e : n = 137 + (n - 137) := by omega
  have h1 := sumYears_add 137 (n - 137) 1970
  rw [← e, sumYears_1970_137] at h1
  omega

/-- C27: for every 32-bit epoch count the epoch constructor returns a
`DateTime` (both loops finish, and no read of the days-in-month table is out of
bounds) with 1970 <= year <= 2106 that is a valid calendar date-time: month in
1..12, day between 1 and `getDaysInMonth(month, year)`, hour below 24, minute
and second below 60. -/
theorem ofUnixtime_valid (p : Platform) (t : Nat) (ht : t < 2 ^ 32) :
    ∃ dt, DateTime.ofUnixtime p t = some dt ∧ 1970 ≤ dt.year ∧ dt.year ≤ 2106 ∧ dt.Valid ∧
      getDaysInMonth dt.month dt.year = some (monthLen dt.month dt.year) ∧
      (∃ days1 days2, yearLoop (t / 86400 + 1) (t / 86400) 1970 = some (days1, dt.year) ∧
        monthLoop (days1 + 1) days1 1 dt.year = some (days2, dt.month) ∧
        dt.day = days2 + 1) := by
  obtain ⟨n, r1, h1, h2⟩ := exists_year_split (t / 86400) 1970
  have hn := year_count_le n (t / 86400) (by omega) (by omega)
  have h2' := h2
  rw [← sumMonths_year] at h2
  obtain ⟨k, r, e1, e2, e3⟩ := exists_month_split (1970 + n) 12 1 r1 (by omega) (by omega) h2
  have hk : k ≤ 11 := by omega
  have hg := getDaysInMonth_eq_monthLen (1 + k) (1970 + n) (by omega) (by omega)
  have et : (sumYears 1970 n + (sumMonths (1970 + n) 1 k + r)) * 86400 + t % 86400 = t := by
    omega
  have ho := ofUnixtime_eq p n k r (t % 86400) (by omega) hk e2 (by omega)
  rw [et] at ho
  refine ⟨_, ho, by simp, by simp; omega, ?_, hg.1, r1, r, ?_, ?_, rfl⟩
  · simp only [DateTime.Valid]
    refine ⟨by omega, by omega, by omega, by omega, by omega, by omega, by omega⟩
  · have := yearLoop_eq n 1970 r1 (t / 86400 + 1) (by omega) (by omega) h2'
    rw [← h1] at this
    exact this
  · have := monthLoop_eq (1970 + n) k 1 r (r1 + 1) (by omega) (by omega) (by omega) e2
    rw [← e1] at this
    exact this

/-- Witness for C27: the largest 32-bit count. -/
theorem ofUnixtime_valid_witness :
    ∃ dt, DateTime.ofUnixtime Platform.esp32 4294967295 = some dt ∧ 1970 ≤ dt.year ∧
      dt.year ≤ 2106 ∧ dt.Valid ∧
      getDaysInMonth dt.month dt.year = some (monthLen dt.month dt.year) ∧
      (∃ days1 days2, yearLoop (4294967295 / 86400 + 1) (4294967295 / 86400) 1970
          = some (days1, dt.year) ∧
        monthLoop (days1 + 1) days1 1 dt.year = some (days2, dt.month) ∧
        dt.day = days2 + 1) :=
  ofUnixtime_valid Platform.esp32 4294967295 (by decide)

/-! ## The order of `DateTime` -/

theorem sumYears_succ_ge (y d : Nat) (hd : 1 ≤ d) : yearLength y ≤ sumYears y d := by
  obtain ⟨e, rfl⟩ : ∃ e, d = e + 1 := ⟨d - 1, by omega⟩
  simp only [sumYears]
  omega

theorem sumMonths_succ_ge (y m d : Nat) (hd : 1 ≤ d) : monthLen m y ≤ sumMonths y m d := by
  obtain ⟨e, rfl⟩ : ∃ e, d = e + 1 := ⟨d - 1, by omega⟩
  simp only [sumMonths]
  omega

/-- Value of `unixtime()` on a valid date of the years 1970..2105. -/
theorem unixtime_valid (dt : DateTime) (hv : dt.Valid) (h1 : 1970 ≤ dt.year)
    (h2 : dt.year ≤ 2105) :
    dt.unixtime = some (dt.dayNumber * 86400 + dt.hour * 3600 + dt.minute * 60 + dt.second) := by
  obtain ⟨m1, m2, d1, d2, hh, hm, hs⟩ := hv
  have em : 1 + (dt.month - 1) = dt.month := by omega
  have hy := sumYears_le_of_le (dt.year - 1970) (by omega)
  have hr := sumMonths_rest_lt dt.year (dt.month - 1) (dt.day - 1) (by omega)
    (by rw [em]; omega)
  have hb := yearLength_bounds dt.year
  exact unixtime_eq dt (dt.year - 1970) (dt.month - 1) (by omega) (by omega) (by omega) d1
    (by omega)

/-- The day number is strictly monotone in (year, month, day) on valid dates. -/
theorem dayNumber_lt (a b : DateTime) (ha : a.Valid) (hb : b.Valid) (h1 : 1970 ≤ a.year)
    (h : a.year < b.year ∨ (a.year = b.year ∧ (a.month < b.month ∨
      (a.month = b.month ∧ a.day < b.day)))) :
    a.dayNumber < b.dayNumber := by
  obtain ⟨am1, am2, ad1, ad2, -, -, -⟩ := ha
  obtain ⟨bm1, bm2, bd1, bd2, -, -, -⟩ := hb
  have em : 1 + (a.month - 1) = a.month := by omega
  unfold DateTime.dayNumber
  rcases h with h | ⟨hy, h | ⟨hm, hd⟩⟩
  · have hr := sumMonths_rest_lt a.year (a.month - 1) (a.day - 1) (by omega)
      (by rw [em]; omega)
    have e : b.year - 1970 = (a.year - 1970) + (b.year - a.year) := by omega
    have e2 : 1970 + (a.year - 1970) = a.year := by omega
    have h3 := sumYears_add (a.year - 1970) (b.year - a.year) 1970
    rw [← e, e2] at h3
    have h4 := sumYears_succ_ge a.year (b.year - a.year) (by omega)
    omega
  · have e : b.month - 1 = (a.month - 1) + (b.month - a.month) := by omega
    have h3 := sumMonths_add b.year (a.month - 1) (b.month - a.month) 1
    rw [← e, em] at h3
    have h4 := sumMonths_succ_ge b.year a.month (b.month - a.month) (by omega)
    rw [hy] at ad2 ⊢
    omega
  · rw [hy, hm]
    omega

/-- On valid dates of the years 1970..2105 a lexicographically smaller date has
the smaller `unixtime()`. -/
theorem unixtime_lt_of_lexLt (a b : DateTime) (ha : a.Valid) (hb : b.Valid)
    (ha1 : 1970 ≤ a.year) (ha2 : a.year ≤ 2105) (hb1 : 1970 ≤ b.year) (hb2 : b.year ≤ 2105)
    (h : a.lexLt b) :
    ∃ ua ub, a.unixtime = some ua ∧ b.unixtime = some ub ∧ ua < ub := by
  refine ⟨_, _, unixtime_valid a ha ha1 ha2, unixtime_valid b hb hb1 hb2, ?_⟩
  have ha0 := ha
  have hb0 := hb
  obtain ⟨-, -, -, -, ah, am, as⟩ := ha
  obtain ⟨-, -, -, -, bh, bm, bs⟩ := hb
  unfold DateTime.lexLt at h
  by_cases hd : a.year < b.year ∨ (a.year = b.year ∧ (a.month < b.month ∨
      (a.month = b.month ∧ a.day < b.day)))
  · have := dayNumber_lt a b ha0 hb0 ha1 hd
    omega
  · have hy : a.year = b.year := by omega
    have hm : a.month = b.month := by omega
    have hdd : a.day = b.day := by omega
    have e : a.dayNumber = b.dayNumber := by
      unfold DateTime.dayNumber
      rw [hy, hm, hdd]
    omega

theorem lex_trichotomy (a b : DateTime) :
    a.lexLt b ∨ b.lexLt a ∨ (a.year = b.year ∧ a.month = b.month ∧ a.day = b.day ∧
      a.hour = b.hour ∧ a.minute = b.minute ∧ a.second = b.second) := by
  unfold DateTime.lexLt
  omega

theorem lex_asymm (a b : DateTime) (h : a.lexLt b) : ¬ b.lexLt a ∧ a.eq b = false := by
  unfold DateTime.lexLt at h ⊢
  refine ⟨by omega, ?_⟩
  by_contra hc
  simp only [DateTime.eq, Bool.not_eq_false, Bool.and_eq_true, beq_iff_eq] at hc
  omega

/-- C21: on valid dates of the years 1970..2105 both `unixtime()` calls return,
`a < b` holds exactly when the fields of `a` are lexicographically smaller
than those of `b`, `a == b` holds exactly when the two epoch counts are equal,
and exactly one of `a < b`, `a == b`, `b < a` holds. -/
theorem datetime_order_by_unixtime (a b : DateTime) (ha : a.Valid) (hb : b.Valid)
    (ha1 : 1970 ≤ a.year) (ha2 : a.year ≤ 2105) (hb1 : 1970 ≤ b.year) (hb2 : b.year ≤ 2105) :
    (∃ ua ub, a.unixtime = some ua ∧ b.unixtime = some ub ∧
      a.lt b = some (decide (ua < ub)) ∧ b.lt a = some (decide (ub < ua)) ∧
      (ua < ub ↔ a.lexLt b) ∧ (ub < ua ↔ b.lexLt a) ∧ (ua = ub ↔ a.eq b = true)) ∧
    (a.lt b = some true ↔ a.lexLt b) ∧
    ((a.lt b = some true ∧ a.eq b = false ∧ b.lt a = some false) ∨
     (a.lt b = some false ∧ a.eq b = true ∧ b.lt a = some false) ∨
     (a.lt b = some false ∧ a.eq b = false ∧ b.lt a = some true)) := by
  have hua := unixtime_valid a ha ha1 ha2
  have hub := unixtime_valid b hb hb1 hb2
  have hab : a.lt b = some (decide (a.dayNumber * 86400 + a.hour * 3600 + a.minute * 60
      + a.second < b.dayNumber * 86400 + b.hour * 3600 + b.minute * 60 + b.second)) := by
    simp only [DateTime.lt, hua, hub]
  have hba : b.lt a = some (decide (b.dayNumber * 86400 + b.hour * 3600 + b.minute * 60
      + b.second < a.dayNumber * 86400 + a.hour * 3600 + a.minute * 60 + a.second)) := by
    simp only [DateTime.lt, hua, hub]
  rcases lex_trichotomy a b with h | h | h
  · obtain ⟨ua, ub, e1, e2, hlt⟩ := unixtime_lt_of_lexLt a b ha hb ha1 ha2 hb1 hb2 h
    rw [hua] at e1
    rw [hub] at e2
    cases e1
    cases e2
    obtain ⟨n1, n2⟩ := lex_asymm a b h
    have d1 := decide_eq_true hlt
    have d2 : decide (b.dayNumber * 86400 + b.hour * 3600 + b.minute * 60
      + b.second < a.dayNumber * 86400 + a.hour * 3600 + a.minute * 60 + a.second) = false :=
      decide_eq_false (by omega)
    rw [d1] at hab
    rw [d2] at hba
    refine ⟨⟨_, _, hua, hub, by rw [hab, d1], by rw [hba, d2], ?_, ?_, ?_⟩, ?_, ?_⟩
    · exact ⟨fun _ => h, fun _ => hlt⟩
    · exact ⟨fun hc => absurd hc (by omega), fun hc => absurd hc n1⟩
    · exact ⟨fun hc => absurd hc (by omega), fun hc => by rw [n2] at hc; cases hc⟩
    · exact ⟨fun _ => h, fun _ => hab⟩
    · exact Or.inl ⟨hab, n2, hba⟩
  · obtain ⟨ub, ua, e2, e1, hlt⟩ := unixtime_lt_of_lexLt b a hb ha hb1 hb2 ha1 ha2 h
    rw [hua] at e1
    rw [hub] at e2
    cases e1
    cases e2
    obtain ⟨n1, n2⟩ := lex_asymm b a h
    have n3 : a.eq b = false := by
      simp only [DateTime.eq] at n2 ⊢
      rw [← n2]
      simp only [Bool.beq_comm]
    have d1 := decide_eq_true hlt
    have d2 : decide (a.dayNumber * 86400 + a.hour * 3600 + a.minute * 60
      + a.second < b.dayNumber * 86400 + b.hour * 3600 + b.minute * 60 + b.second) = false :=
      decide_eq_false (by omega)
    rw [d1] at hba
    rw [d2] at hab
    refine ⟨⟨_, _, hua, hub, by rw [hab, d2], by rw [hba, d1], ?_, ?_, ?_⟩, ?_, ?_⟩
    · exact ⟨fun hc => absurd hc (by omega), fun hc => absurd hc n1⟩
    · exact ⟨fun _ => h, fun _ => hlt⟩
    · exact ⟨fun hc => absurd hc (by omega), fun hc => by rw [n3] at hc; cases hc⟩
    · exact ⟨fun hc => (by rw [hab] at hc; cases hc), fun hc => absurd hc n1⟩
    · exact Or.inr (Or.inr ⟨hab, n3, hba⟩)
  · obtain ⟨hy, hm, hd, hh, hmi, hs⟩ := h
    have e : a.dayNumber = b.dayNumber := by
      unfold DateTime.dayNumber
      rw [hy, hm, hd]
    have heq : a.eq b = true := by
      simp [DateTime.eq, hy, hm, hd, hh, hmi, hs]
    have nab : ¬ a.lexLt b := by unfold DateTime.lexLt; omega
    have nba : ¬ b.lexLt a := by unfold DateTime.lexLt; omega
    have d1 : decide (a.dayNumber * 86400 + a.hour * 3600 + a.minute * 60
      + a.second < b.dayNumber * 86400 + b.hour * 3600 + b.minute * 60 + b.second) = false :=
      decide_eq_false (by omega)
    have d2 : decide (b.dayNumber * 86400 + b.hour * 3600 + b.minute * 60
      + b.second < a.dayNumber * 86400 + a.hour * 3600 + a.minute * 60 + a.second) = false :=
      decide_eq_false (by omega)
    rw [d1] at hab
    rw [d2] at hba
    refine ⟨⟨_, _, hua, hub, by rw [hab, d1], by rw [hba, d2], ?_, ?_, ?_⟩, ?_, ?_⟩
    · exact ⟨fun hc => absurd hc (by omega), fun hc => absurd hc nab⟩
    · exact ⟨fun hc => absurd hc (by omega), fun hc => absurd hc nba⟩
    · exact ⟨fun _ => heq, fun _ => by omega⟩
    · exact ⟨fun hc => (by rw [hab] at hc; cases hc), fun hc => absurd hc nab⟩
    · exact Or.inr (Or.inl ⟨hab, heq, hba⟩)

/-- Witness for C21: 2024-02-29 23:59:59 is before 2024-03-01 00:00:00. -/
theorem datetime_order_by_unixtime_witness :
    (DateTime.ofComponents Platform.esp32 2024 2 29 23 59 59).lt
        (DateTime.ofComponents Platform.esp32 2024 3 1 0 0 0) = some true ∧
      (DateTime.ofComponents Platform.esp32 2024 2 29 23 59 59).lexLt
        (DateTime.ofComponents Platform.esp32 2024 3 1 0 0 0) :=
  have h := (datetime_order_by_unixtime (DateTime.ofComponents Platform.esp32 2024 2 29 23 59 59)
    (DateTime.ofComponents Platform.esp32 2024 3 1 0 0 0)
    (by decide) (by decide) (by decide) (by decide) (by decide) (by decide)).2.1
  ⟨h.2 (by unfold DateTime.lexLt; decide), by unfold DateTime.lexLt; decide⟩

end SmartFarm
